import Mathlib

/-!
Magnum `Shaders::VectorGL`: variant selection, two-phase construction and the
uniform / uniform-buffer runtime interface.

A shallow embedding of `src/Magnum/Shaders/VectorGL.cpp`.

* The preprocessor configuration the file is compiled under is an explicit
  `Build` value; every `#ifdef` / `#ifndef` of the source is a test on it.
* The graphics context (capability probe), the driver's answers and the
  resource provider are read-only parameters collected in `Env`.
* Every call the code issues to a collaborator (shader object, program
  object, buffer, texture, assertion log) is recorded, in order, as an
  `Event`; a function of the source returns the events it issued together
  with its outcome (`Run`).
-/

namespace Magnum.Shaders

/-! ## Build configuration -/

/-- The platform the library is built for. -/
inductive Target where
  | desktop
  | gles3
  | gles2
  | webgl2
  | webgl1
  deriving DecidableEq, Repr

/-- The preprocessor configuration of one build of the library. -/
structure Build where
  target : Target
  /-- Whether `CORRADE_GRACEFUL_ASSERT` is defined. -/
  CORRADE_GRACEFUL_ASSERT : Bool
  /-- Whether `MAGNUM_BUILD_STATIC` is defined. -/
  MAGNUM_BUILD_STATIC : Bool
  deriving DecidableEq, Repr

/-- Whether `MAGNUM_TARGET_GLES` is defined. -/
def Build.MAGNUM_TARGET_GLES (b : Build) : Bool :=
  match b.target with
  | .desktop => false
  | _ => true

/-- Whether `MAGNUM_TARGET_GLES2` is defined. -/
def Build.MAGNUM_TARGET_GLES2 (b : Build) : Bool :=
  match b.target with
  | .gles2 => true
  | .webgl1 => true
  | _ => false

/-- Whether `MAGNUM_TARGET_WEBGL` is defined. -/
def Build.MAGNUM_TARGET_WEBGL (b : Build) : Bool :=
  match b.target with
  | .webgl2 => true
  | .webgl1 => true
  | _ => false

/-! ## Flags and configuration -/

/-- The three variant flags. -/
inductive Flag where
  | TextureTransformation
  | UniformBuffers
  | MultiDraw
  deriving DecidableEq, Repr

/-- Modelled from the spec: the header `VectorGL.h` that declares the `Flag`
enumeration is not among the sources. The spec gives the flags as a bit set
in which `MultiDraw` is a superset of `UniformBuffers` (`VectorGL.cpp`, line
410, says the same); the bit values are those of an `UnsignedByte` enum. -/
def Flag.value : Flag → Nat
  | .TextureTransformation => 1
  | .UniformBuffers => 2
  | .MultiDraw => 2 ||| 4

/-- An `EnumSet` of `Flag`, stored as its bit pattern. -/
structure Flags where
  bits : Nat
  deriving DecidableEq, Repr

/-- The `flags >= Flag::X` test of `EnumSet`: every bit of `X` is set. -/
def Flags.ge (s : Flags) (f : Flag) : Bool :=
  s.bits &&& f.value == f.value

/-- The `flags & Flag::X` test of `EnumSet` in a boolean context: some bit of
`X` is set. -/
def Flags.and (s : Flags) (f : Flag) : Bool :=
  s.bits &&& f.value != 0

/-- The `Configuration` value passed to `compile()`. The two counts exist only
in builds without `MAGNUM_TARGET_GLES2`. -/
structure Configuration where
  flags : Flags
  materialCount : Nat
  drawCount : Nat
  deriving DecidableEq, Repr

/-! ## Collaborators -/

/-- The versions named in the preference lists of `compile()`, and
`GL::Version::None`. -/
inductive Version where
  | None
  | GL210
  | GL300
  | GL310
  | GL320
  | GLES200
  | GLES300
  deriving DecidableEq, Repr

/-- The extensions the file asks the context about. -/
inductive Extension where
  | ARB_uniform_buffer_object
  | ARB_shader_draw_parameters
  | ANGLE_multi_draw
  | WEBGL_multi_draw
  | ARB_explicit_attrib_location
  | ARB_explicit_uniform_location
  | ARB_shading_language_420pack
  deriving DecidableEq, Repr

/-- The shader stage, `GL::Shader::Type`. -/
inductive ShaderType where
  | Vertex
  | Fragment
  deriving DecidableEq, Repr

/-- The vertex attributes whose `Location` constant `compile()` binds. -/
inductive Attribute where
  | Position
  | TextureCoordinates
  deriving DecidableEq, Repr

/-- A square matrix of the given size, row by row. The entries are only
passed through to the driver, so they are kept as exact numbers. -/
structure Matrix where
  size : Nat
  rows : List (List Int)
  deriving DecidableEq, Repr

/-- The matrix built by `Math::IdentityInit`. -/
def Matrix.identity (n : Nat) : Matrix :=
  ⟨n, (List.range n).map fun i => (List.range n).map fun j => if i = j then 1 else 0⟩

/-- An RGBA colour. -/
structure Color4 where
  r : Int
  g : Int
  b : Int
  a : Int
  deriving DecidableEq, Repr

/-- The colour `Color4{1.0f}`: the given value in the three colour channels
and full alpha. -/
def Color4.ofValue (rgb : Int) : Color4 := ⟨rgb, rgb, rgb, 1⟩

/-- A value written to a uniform. -/
inductive Value where
  | int (v : Int)
  | unsignedInt (v : Nat)
  | matrix (m : Matrix)
  | color (c : Color4)
  deriving DecidableEq, Repr

/-- One call issued to a collaborator. -/
inductive Event where
  /-- The message logged by a failed `CORRADE_ASSERT`. -/
  | assertion (message : String)
  /-- The message logged by a failed `MAGNUM_ASSERT_GL_EXTENSION_SUPPORTED`. -/
  | extensionRequired (extension : Extension)
  | importShaderResources
  /-- The call `Implementation::createCompatibilityShader(rs, version, type)`:
  creates the shader object and adds the compatibility preamble. -/
  | createCompatibilityShader (version : Version) (type : ShaderType)
  | addSource (type : ShaderType) (source : String)
  | submitCompile (type : ShaderType)
  /-- Creation of the program object by `VectorGL{NoInit}`. -/
  | createProgram (id : Nat)
  | attachShaders (shaders : List ShaderType)
  | bindAttributeLocation (location : Attribute) (name : String)
  | submitLink
  | checkLink (shaders : List ShaderType)
  | uniformLocation (name : String)
  | uniformBlockIndex (name : String)
  | setUniformBlockBinding (index : Nat) (binding : Int)
  | setUniform (location : Int) (value : Value)
  /-- The call `buffer.bind(GL::Buffer::Target::Uniform, binding[, offset, size])`. -/
  | bufferBind (buffer : Nat) (binding : Int) (range : Option (Int × Int))
  /-- The call `texture.bind(unit)`. -/
  | textureBind (texture : Nat) (unit : Int)
  deriving DecidableEq, Repr

/-- The capability probe, `GL::Context::current()`. -/
structure Context where
  supportedVersion : List Version → Version
  /-- The query `isExtensionSupported<E>()`. -/
  isExtensionSupported : Extension → Bool
  /-- The query `isExtensionSupported<E>(version)`. -/
  isExtensionSupportedFor : Extension → Version → Bool

/-- The answers of the driver to the calls that return something. -/
structure Driver where
  /-- The id given to a new program object. -/
  createProgram : Nat
  /-- The id given to a new shader object. -/
  createShader : ShaderType → Nat
  /-- The result of `checkLink()`. -/
  checkLink : Bool
  uniformLocation : String → Int
  uniformBlockIndex : String → Nat

/-- The default member initialisers of the uniform locations. They are
declared in `VectorGL.h`, which is not among the sources, and are taken as a
parameter. -/
structure UniformDefaults where
  transformationProjectionMatrixUniform : Int
  textureMatrixUniform : Int
  backgroundColorUniform : Int
  colorUniform : Int
  drawOffsetUniform : Int
  deriving DecidableEq, Repr

/-- Everything the code reads from its surroundings. -/
structure Env where
  build : Build
  context : Context
  driver : Driver
  /-- The answer of `Utility::Resource::hasGroup("MagnumShadersGL")`. -/
  hasGroup : Bool
  /-- The source provider, `rs.getString(name)`. -/
  getString : String → String
  uniformDefaults : UniformDefaults

/-! ## Runs -/

/-- How a call ends: it returns a value, or the process is terminated. -/
inductive Outcome (α : Type) where
  | returned (value : α)
  | aborted
  deriving DecidableEq, Repr

/-- The events a call issued, in order, and how it ended. -/
structure Run (α : Type) where
  trace : List Event
  outcome : Outcome α
  deriving DecidableEq, Repr

/-- Return a value, issuing nothing. -/
def Run.ret {α : Type} (a : α) : Run α := ⟨[], .returned a⟩

/-- Issue the given events, then continue. -/
def Run.emit {α : Type} (events : List Event) (k : Run α) : Run α :=
  ⟨events ++ k.trace, k.outcome⟩

/-- Run a call, then continue with its result if it returned. -/
def Run.andThen {α β : Type} (r : Run α) (k : α → Run β) : Run β :=
  match r.outcome with
  | .returned a => Run.emit r.trace (k a)
  | .aborted => ⟨r.trace, .aborted⟩

/-- A block under `#ifndef MACRO`: skipped when the macro is defined. -/
def ifndef {α : Type} (defined : Bool) (body : Run α → Run α) (k : Run α) : Run α :=
  if defined then k else body k

/-- Modelled from the spec: the macro `CORRADE_ASSERT(condition, message,
returnValue)` comes from the Corrade library and is not among the sources. By
the spec (sections 4.2 and 7) a violated condition logs the message; a build
with graceful assertions then returns the given value from the enclosing
function, any other build terminates the process. -/
def CORRADE_ASSERT {α : Type} (b : Build) (condition : Bool) (message : String)
    (returnValue : α) (k : Run α) : Run α :=
  if condition then k
  else ⟨[.assertion message],
    if b.CORRADE_GRACEFUL_ASSERT then .returned returnValue else .aborted⟩

/-- Modelled from the spec: the macro `MAGNUM_ASSERT_GL_EXTENSION_SUPPORTED`
is declared in `Magnum/GL/Context.h`, which is not among the sources. By the
spec (section 4.2) an unsupported extension is a synchronous failure; the
macro takes no value to return, so the call cannot continue and the run ends
there. -/
def MAGNUM_ASSERT_GL_EXTENSION_SUPPORTED {α : Type} (context : Context)
    (extension : Extension) (k : Run α) : Run α :=
  if context.isExtensionSupported extension then k
  else ⟨[.extensionRequired extension], .aborted⟩

/-- Modelled from the spec: the macro `CORRADE_INTERNAL_ASSERT_OUTPUT(call)`
comes from the Corrade library. The call is always made; by the spec (section
4.3) a failed link check is fatal to the construction. -/
def CORRADE_INTERNAL_ASSERT_OUTPUT {α : Type} (call : Event) (result : Bool)
    (k : Run α) : Run α :=
  if result then Run.emit [call] k else ⟨[call], .aborted⟩

/-! ## The program object and the compile state -/

/-- The binding constants of the anonymous namespace (lines 54 to 68). -/
def TextureUnit : Int := 6

/-- The uniform-buffer binding point of the transformation/projection block. -/
def TransformationProjectionBufferBinding : Int := 1

/-- The uniform-buffer binding point of the draw block. -/
def DrawBufferBinding : Int := 2

/-- The uniform-buffer binding point of the texture-transformation block. -/
def TextureTransformationBufferBinding : Int := 3

/-- The uniform-buffer binding point of the material block. -/
def MaterialBufferBinding : Int := 4

/-- A shader object, `GL::Shader`. -/
structure Shader where
  type : ShaderType
  id : Nat
  deriving DecidableEq, Repr

/-- The members of a `VectorGL` object: the id of the program it owns, the
configuration it was compiled for and its uniform locations. -/
structure VectorGL where
  id : Nat
  flags : Flags
  materialCount : Nat
  drawCount : Nat
  transformationProjectionMatrixUniform : Int
  textureMatrixUniform : Int
  backgroundColorUniform : Int
  colorUniform : Int
  drawOffsetUniform : Int
  deriving DecidableEq, Repr

/-- The object with the given program id and every other member at its
default initialiser. -/
def VectorGL.withId (defaults : UniformDefaults) (id : Nat) : VectorGL :=
  { id := id
    flags := ⟨0⟩
    materialCount := 0
    drawCount := 0
    transformationProjectionMatrixUniform := defaults.transformationProjectionMatrixUniform
    textureMatrixUniform := defaults.textureMatrixUniform
    backgroundColorUniform := defaults.backgroundColorUniform
    colorUniform := defaults.colorUniform
    drawOffsetUniform := defaults.drawOffsetUniform }

/-- The constructor `VectorGL(NoInitT)` of line 267: the base class creates a
program object, the members keep their default initialisers. -/
def VectorGL.NoInit (env : Env) : VectorGL :=
  VectorGL.withId env.uniformDefaults env.driver.createProgram

/-- The constructor `VectorGL(NoCreateT)`: no program object, id 0. -/
def VectorGL.NoCreate (env : Env) : VectorGL :=
  VectorGL.withId env.uniformDefaults 0

/-- The `CompileState`: the program being built (its base class), the two
shader objects and, on desktop builds, the version. -/
structure CompileState where
  program : VectorGL
  vert : Shader
  frag : Shader
  version : Version
  deriving DecidableEq, Repr

/-- Modelled from the spec: the constructor `CompileState{NoCreate}` is
declared in `VectorGL.h`, which is not among the sources. By the spec (section
4.2) it is the not-created sentinel: no program object and no shader object
stands behind it. -/
def CompileState.NoCreate (env : Env) : CompileState :=
  { program := VectorGL.NoCreate env
    vert := ⟨.Vertex, 0⟩
    frag := ⟨.Fragment, 0⟩
    version := .None }

/-! ## `compile()` -/

/-- Lines 94 to 167 of `compile()`: what the function does once its
assertions have passed. -/
def compileBody (env : Env) (dimensions : Nat) (configuration : Configuration) :
    Run CompileState :=
  let b := env.build
  let context := env.context
  let flags := configuration.flags
  -- lines 94 to 98
  Run.emit (if b.MAGNUM_BUILD_STATIC && !env.hasGroup then [.importShaderResources] else []) <|
  -- lines 103 to 107
  let version :=
    if !b.MAGNUM_TARGET_GLES then
      context.supportedVersion [.GL320, .GL310, .GL300, .GL210]
    else
      context.supportedVersion [.GLES300, .GLES200]
  -- lines 109 to 123
  let vert : Shader := ⟨.Vertex, env.driver.createShader .Vertex⟩
  Run.emit [.createCompatibilityShader version .Vertex,
    .addSource .Vertex
      (if flags.and .TextureTransformation then "#define TEXTURE_TRANSFORMATION\n" else ""),
    .addSource .Vertex
      (if dimensions == 2 then "#define TWO_DIMENSIONS\n" else "#define THREE_DIMENSIONS\n")] <|
  Run.emit (if !b.MAGNUM_TARGET_GLES2 && flags.ge .UniformBuffers then
    [.addSource .Vertex
      ("#define UNIFORM_BUFFERS\n#define DRAW_COUNT " ++ toString configuration.drawCount ++ "\n"),
     .addSource .Vertex (if flags.ge .MultiDraw then "#define MULTI_DRAW\n" else "")]
    else []) <|
  Run.emit [.addSource .Vertex (env.getString "generic.glsl"),
    .addSource .Vertex (env.getString "Vector.vert"),
    .submitCompile .Vertex] <|
  -- lines 125 to 139
  let frag : Shader := ⟨.Fragment, env.driver.createShader .Fragment⟩
  Run.emit [.createCompatibilityShader version .Fragment] <|
  Run.emit (if !b.MAGNUM_TARGET_GLES2 && flags.ge .UniformBuffers then
    [.addSource .Fragment
      ("#define UNIFORM_BUFFERS\n#define DRAW_COUNT " ++ toString configuration.drawCount
        ++ "\n#define MATERIAL_COUNT " ++ toString configuration.materialCount ++ "\n"),
     .addSource .Fragment (if flags.ge .MultiDraw then "#define MULTI_DRAW\n" else "")]
    else []) <|
  Run.emit [.addSource .Fragment (env.getString "generic.glsl"),
    .addSource .Fragment (env.getString "Vector.frag"),
    .submitCompile .Fragment] <|
  -- lines 141 to 146
  let out : VectorGL :=
    if b.MAGNUM_TARGET_GLES2 then
      { VectorGL.NoInit env with flags := flags }
    else
      { VectorGL.NoInit env with
        flags := flags
        materialCount := configuration.materialCount
        drawCount := configuration.drawCount }
  Run.emit [.createProgram out.id, .attachShaders [.Vertex, .Fragment]] <|
  -- lines 150 to 159
  Run.emit (if b.MAGNUM_TARGET_GLES && !b.MAGNUM_TARGET_GLES2 then []
    else if !b.MAGNUM_TARGET_GLES
        && context.isExtensionSupportedFor .ARB_explicit_attrib_location version then []
    else [.bindAttributeLocation .Position "position",
      .bindAttributeLocation .TextureCoordinates "textureCoordinates"]) <|
  -- lines 161 to 167
  Run.emit [.submitLink] <|
  Run.ret
    { program := out
      vert := vert
      frag := frag
      version := if !b.MAGNUM_TARGET_GLES then version else .None }

/-- Lines 71 to 76 of `compile()`: the two count assertions. -/
def assertCounts (env : Env) (configuration : Configuration) (k : Run CompileState) :
    Run CompileState :=
  let b := env.build
  let flags := configuration.flags
  ifndef b.MAGNUM_TARGET_GLES2 (fun k =>
    CORRADE_ASSERT b (!(flags.ge .UniformBuffers) || configuration.materialCount != 0)
      "Shaders::VectorGL: material count can\x27t be zero" (CompileState.NoCreate env) <|
    CORRADE_ASSERT b (!(flags.ge .UniformBuffers) || configuration.drawCount != 0)
      "Shaders::VectorGL: draw count can\x27t be zero" (CompileState.NoCreate env) k) k

/-- Lines 78 to 81 of `compile()`: the extension required for uniform
buffers. -/
def assertUniformBuffersSupported (env : Env) (configuration : Configuration)
    (k : Run CompileState) : Run CompileState :=
  ifndef env.build.MAGNUM_TARGET_GLES (fun k =>
    if configuration.flags.ge .UniformBuffers then
      MAGNUM_ASSERT_GL_EXTENSION_SUPPORTED env.context .ARB_uniform_buffer_object k
    else k) k

/-- Lines 82 to 92 of `compile()`: the extension required for multi-draw. -/
def assertMultiDrawSupported (env : Env) (configuration : Configuration)
    (k : Run CompileState) : Run CompileState :=
  let b := env.build
  let context := env.context
  ifndef b.MAGNUM_TARGET_GLES2 (fun k =>
    if configuration.flags.ge .MultiDraw then
      if !b.MAGNUM_TARGET_GLES then
        MAGNUM_ASSERT_GL_EXTENSION_SUPPORTED context .ARB_shader_draw_parameters k
      else if !b.MAGNUM_TARGET_WEBGL then
        MAGNUM_ASSERT_GL_EXTENSION_SUPPORTED context .ANGLE_multi_draw k
      else
        MAGNUM_ASSERT_GL_EXTENSION_SUPPORTED context .WEBGL_multi_draw k
    else k) k

/-- The function `VectorGL<dimensions>::compile(const Configuration&)`, lines
70 to 168: the assertions of lines 71 to 92 in their order, then
`compileBody`. -/
def compile (env : Env) (dimensions : Nat) (configuration : Configuration) :
    Run CompileState :=
  assertCounts env configuration <|
  assertUniformBuffersSupported env configuration <|
  assertMultiDrawSupported env configuration <|
  compileBody env dimensions configuration

/-! ## The runtime interface -/

/-- The function `setTransformationProjectionMatrix()`, lines 269 to 276. -/
def VectorGL.setTransformationProjectionMatrix (b : Build) (self : VectorGL)
    (matrix : Matrix) : Run VectorGL :=
  ifndef b.MAGNUM_TARGET_GLES2 (fun k =>
    CORRADE_ASSERT b (!(self.flags.ge .UniformBuffers))
      "Shaders::VectorGL::setTransformationProjectionMatrix(): the shader was created with uniform buffers enabled"
      self k) <|
  Run.emit [.setUniform self.transformationProjectionMatrixUniform (.matrix matrix)] <|
  Run.ret self

/-- The function `setTextureMatrix()`, lines 278 to 287. -/
def VectorGL.setTextureMatrix (b : Build) (self : VectorGL) (matrix : Matrix) :
    Run VectorGL :=
  ifndef b.MAGNUM_TARGET_GLES2 (fun k =>
    CORRADE_ASSERT b (!(self.flags.ge .UniformBuffers))
      "Shaders::VectorGL::setTextureMatrix(): the shader was created with uniform buffers enabled"
      self k) <|
  CORRADE_ASSERT b (self.flags.and .TextureTransformation)
    "Shaders::VectorGL::setTextureMatrix(): the shader was not created with texture transformation enabled"
    self <|
  Run.emit [.setUniform self.textureMatrixUniform (.matrix matrix)] <|
  Run.ret self

/-- The function `setBackgroundColor()`, lines 289 to 296. -/
def VectorGL.setBackgroundColor (b : Build) (self : VectorGL) (color : Color4) :
    Run VectorGL :=
  ifndef b.MAGNUM_TARGET_GLES2 (fun k =>
    CORRADE_ASSERT b (!(self.flags.ge .UniformBuffers))
      "Shaders::VectorGL::setBackgroundColor(): the shader was created with uniform buffers enabled"
      self k) <|
  Run.emit [.setUniform self.backgroundColorUniform (.color color)] <|
  Run.ret self

/-- The function `setColor()`, lines 298 to 305. -/
def VectorGL.setColor (b : Build) (self : VectorGL) (color : Color4) : Run VectorGL :=
  ifndef b.MAGNUM_TARGET_GLES2 (fun k =>
    CORRADE_ASSERT b (!(self.flags.ge .UniformBuffers))
      "Shaders::VectorGL::setColor(): the shader was created with uniform buffers enabled"
      self k) <|
  Run.emit [.setUniform self.colorUniform (.color color)] <|
  Run.ret self

/-- The function `setDrawOffset()`, lines 308 to 315. It is declared only in
builds without `MAGNUM_TARGET_GLES2`, as are the buffer-binding functions
below. -/
def VectorGL.setDrawOffset (b : Build) (self : VectorGL) (offset : Nat) : Run VectorGL :=
  CORRADE_ASSERT b (self.flags.ge .UniformBuffers)
    "Shaders::VectorGL::setDrawOffset(): the shader was not created with uniform buffers enabled"
    self <|
  CORRADE_ASSERT b (decide (offset < self.drawCount))
    ("Shaders::VectorGL::setDrawOffset(): draw offset " ++ toString offset
      ++ " is out of bounds for " ++ toString self.drawCount ++ " draws")
    self <|
  Run.emit (if self.drawCount > 1 then
    [.setUniform self.drawOffsetUniform (.unsignedInt offset)] else []) <|
  Run.ret self

/-- The two overloads of `bindTransformationProjectionBuffer()`, lines 317 to
329: `range` is `none` for the whole buffer, `some (offset, size)` for the
ranged overload. -/
def VectorGL.bindTransformationProjectionBuffer (b : Build) (self : VectorGL)
    (buffer : Nat) (range : Option (Int × Int)) : Run VectorGL :=
  CORRADE_ASSERT b (self.flags.ge .UniformBuffers)
    "Shaders::VectorGL::bindTransformationProjectionBuffer(): the shader was not created with uniform buffers enabled"
    self <|
  Run.emit [.bufferBind buffer TransformationProjectionBufferBinding range] <|
  Run.ret self

/-- The two overloads of `bindDrawBuffer()`, lines 331 to 343. -/
def VectorGL.bindDrawBuffer (b : Build) (self : VectorGL) (buffer : Nat)
    (range : Option (Int × Int)) : Run VectorGL :=
  CORRADE_ASSERT b (self.flags.ge .UniformBuffers)
    "Shaders::VectorGL::bindDrawBuffer(): the shader was not created with uniform buffers enabled"
    self <|
  Run.emit [.bufferBind buffer DrawBufferBinding range] <|
  Run.ret self

/-- The two overloads of `bindTextureTransformationBuffer()`, lines 345 to
361. -/
def VectorGL.bindTextureTransformationBuffer (b : Build) (self : VectorGL)
    (buffer : Nat) (range : Option (Int × Int)) : Run VectorGL :=
  CORRADE_ASSERT b (self.flags.ge .UniformBuffers)
    "Shaders::VectorGL::bindTextureTransformationBuffer(): the shader was not created with uniform buffers enabled"
    self <|
  CORRADE_ASSERT b (self.flags.and .TextureTransformation)
    "Shaders::VectorGL::bindTextureTransformationBuffer(): the shader was not created with texture transformation enabled"
    self <|
  Run.emit [.bufferBind buffer TextureTransformationBufferBinding range] <|
  Run.ret self

/-- The two overloads of `bindMaterialBuffer()`, lines 363 to 375. -/
def VectorGL.bindMaterialBuffer (b : Build) (self : VectorGL) (buffer : Nat)
    (range : Option (Int × Int)) : Run VectorGL :=
  CORRADE_ASSERT b (self.flags.ge .UniformBuffers)
    "Shaders::VectorGL::bindMaterialBuffer(): the shader was not created with uniform buffers enabled"
    self <|
  Run.emit [.bufferBind buffer MaterialBufferBinding range] <|
  Run.ret self

/-- The function `bindVectorTexture()`, lines 378 to 381. -/
def VectorGL.bindVectorTexture (self : VectorGL) (texture : Nat) : Run VectorGL :=
  Run.emit [.textureBind texture TextureUnit] <|
  Run.ret self

/-! ## The finalizing constructor -/

/-- Lines 199 to 216 of the constructor: the uniform locations looked up by
name, and the object with the locations stored. -/
def resolveUniformLocations (env : Env) (state : CompileState) (self : VectorGL) :
    List Event × VectorGL :=
  let b := env.build
  if !b.MAGNUM_TARGET_GLES
      && env.context.isExtensionSupportedFor .ARB_explicit_uniform_location state.version then
    ([], self)
  else if !b.MAGNUM_TARGET_GLES2 && self.flags.ge .UniformBuffers then
    if self.drawCount > 1 then
      ([.uniformLocation "drawOffset"],
        { self with drawOffsetUniform := env.driver.uniformLocation "drawOffset" })
    else ([], self)
  else
    let self1 := { self with
      transformationProjectionMatrixUniform :=
        env.driver.uniformLocation "transformationProjectionMatrix" }
    let self2 :=
      if self1.flags.and .TextureTransformation then
        { self1 with textureMatrixUniform := env.driver.uniformLocation "textureMatrix" }
      else self1
    ([.uniformLocation "transformationProjectionMatrix"]
      ++ (if self.flags.and .TextureTransformation then [.uniformLocation "textureMatrix"]
          else [])
      ++ [.uniformLocation "backgroundColor", .uniformLocation "color"],
     { self2 with
       backgroundColorUniform := env.driver.uniformLocation "backgroundColor"
       colorUniform := env.driver.uniformLocation "color" })

/-- Lines 218 to 232 of the constructor: the sampler and the uniform blocks
bound by name. -/
def resolveBindings (env : Env) (state : CompileState) (self : VectorGL) : List Event :=
  let b := env.build
  let driver := env.driver
  if !b.MAGNUM_TARGET_GLES
      && env.context.isExtensionSupportedFor .ARB_shading_language_420pack state.version then
    []
  else
    [.uniformLocation "vectorTexture",
     .setUniform (driver.uniformLocation "vectorTexture") (.int TextureUnit)]
    ++ (if !b.MAGNUM_TARGET_GLES2 && self.flags.ge .UniformBuffers then
      [.uniformBlockIndex "TransformationProjection",
       .setUniformBlockBinding (driver.uniformBlockIndex "TransformationProjection")
         TransformationProjectionBufferBinding,
       .uniformBlockIndex "Draw",
       .setUniformBlockBinding (driver.uniformBlockIndex "Draw") DrawBufferBinding]
      ++ (if self.flags.and .TextureTransformation then
        [.uniformBlockIndex "TextureTransformation",
         .setUniformBlockBinding (driver.uniformBlockIndex "TextureTransformation")
           TextureTransformationBufferBinding]
        else [])
      ++ [.uniformBlockIndex "Material",
       .setUniformBlockBinding (driver.uniformBlockIndex "Material") MaterialBufferBinding]
      else [])

/-- Lines 234 to 248 of the constructor: the defaults set in OpenGL ES
builds. -/
def setDefaults (env : Env) (dimensions : Nat) (self : VectorGL) : Run VectorGL :=
  let b := env.build
  if !b.MAGNUM_TARGET_GLES then Run.ret self
  else if !b.MAGNUM_TARGET_GLES2 && self.flags.ge .UniformBuffers then
    Run.ret self
  else
    Run.andThen (self.setTransformationProjectionMatrix b (Matrix.identity (dimensions + 1)))
      fun self =>
    Run.andThen (if self.flags.and .TextureTransformation then
        self.setTextureMatrix b (Matrix.identity 3)
      else Run.ret self) fun self =>
    self.setColor b (Color4.ofValue 1)

/-- The constructor `VectorGL(CompileState&&)`, lines 190 to 249. -/
def VectorGL.ofCompileState (env : Env) (dimensions : Nat) (state : CompileState) :
    Run VectorGL :=
  let b := env.build
  -- the object is move-constructed from the base of the state
  let self := state.program
  -- lines 191 to 195
  if b.CORRADE_GRACEFUL_ASSERT && self.id == 0 then Run.ret self
  else
  -- line 197
  CORRADE_INTERNAL_ASSERT_OUTPUT (.checkLink [.Vertex, .Fragment]) env.driver.checkLink <|
  -- lines 199 to 216
  let located := resolveUniformLocations env state self
  Run.emit located.1 <|
  -- lines 218 to 232
  Run.emit (resolveBindings env state located.2) <|
  -- lines 234 to 248
  setDefaults env dimensions located.2

/-- The constructor `VectorGL(const Configuration&)`, line 251: compile, then
finalize. -/
def VectorGL.ofConfiguration (env : Env) (dimensions : Nat) (configuration : Configuration) :
    Run VectorGL :=
  Run.andThen (compile env dimensions configuration) (VectorGL.ofCompileState env dimensions)

/-! ## Observations on runs -/

/-- Whether the event is the message of a failed precondition. -/
def Event.isRejection : Event → Bool
  | .assertion _ => true
  | .extensionRequired _ => true
  | _ => false

/-- Whether the event creates a shader or program object or adds a source. -/
def Event.isCreation : Event → Bool
  | .createCompatibilityShader _ _ => true
  | .addSource _ _ => true
  | .createProgram _ => true
  | _ => false

/-- The uniform writes of a trace: location and value, in order. -/
def uniformWrites (trace : List Event) : List (Int × Value) :=
  trace.filterMap fun
    | .setUniform location value => some (location, value)
    | _ => none

/-- The buffer binds of a trace: buffer, binding point and range, in order. -/
def bufferBinds (trace : List Event) : List (Nat × Int × Option (Int × Int)) :=
  trace.filterMap fun
    | .bufferBind buffer binding range => some (buffer, binding, range)
    | _ => none

/-- The uniform names looked up in a trace, in order. -/
def uniformLookups (trace : List Event) : List String :=
  trace.filterMap fun
    | .uniformLocation name => some name
    | _ => none

/-- The sources added to the shader of the given stage, in order. -/
def sourcesOf (type : ShaderType) (trace : List Event) : List String :=
  trace.filterMap fun
    | .addSource t source => if t = type then some source else none
    | _ => none

/-- The value a sequence of uniform writes leaves at a location: that of the
last write to it, `none` when the location is never written and so keeps the
value it had after linking. -/
def lastWrite (location : Int) (writes : List (Int × Value)) : Option Value :=
  writes.foldl (fun acc w => if w.1 = location then some w.2 else acc) none

/-- The precondition-violation path of a member function: the run consists of
the message of one failed `CORRADE_ASSERT` and nothing else, and it ends by
returning the given value (graceful assertions) or by terminating. -/
def violation {α : Type} [DecidableEq α] (b : Build) (returnValue : α) (r : Run α) : Bool :=
  match r.trace with
  | [.assertion _] =>
    r.outcome == (if b.CORRADE_GRACEFUL_ASSERT then .returned returnValue else .aborted)
  | _ => false

/-- A rejected `compile()`: the run consists of the message of one failed
precondition and nothing else, and no compile state other than the
not-created sentinel comes out of it. -/
def rejected (env : Env) (r : Run CompileState) : Bool :=
  match r.trace with
  | [e] => e.isRejection
    && (r.outcome == .aborted || r.outcome == .returned (CompileState.NoCreate env))
  | _ => false

/-- A configuration is accepted by `compile()` when no precondition fails. -/
def accepted (env : Env) (dimensions : Nat) (configuration : Configuration) : Bool :=
  (compile env dimensions configuration).trace.all fun e => !e.isRejection

/-- Whether the flag set uses only flags the build declares: `UniformBuffers`
and `MultiDraw` are declared only without `MAGNUM_TARGET_GLES2`. -/
def Flags.declaredIn (s : Flags) (b : Build) : Bool :=
  !b.MAGNUM_TARGET_GLES2 || !s.and .MultiDraw

/-- The extension `compile()` requires for `UniformBuffers`, lines 78 to 81:
only desktop builds have one. -/
def uniformBufferExtension (b : Build) : Option Extension :=
  if !b.MAGNUM_TARGET_GLES then some .ARB_uniform_buffer_object else none

/-- The extension `compile()` requires for `MultiDraw`, lines 84 to 90. -/
def multiDrawExtension (b : Build) : Extension :=
  if !b.MAGNUM_TARGET_GLES then .ARB_shader_draw_parameters
  else if !b.MAGNUM_TARGET_WEBGL then .ANGLE_multi_draw
  else .WEBGL_multi_draw

/-- The extension the constructor asks about before looking uniform locations
up by name, lines 199 to 202: only desktop builds have one. -/
def explicitUniformLocationExtension (b : Build) : Option Extension :=
  if !b.MAGNUM_TARGET_GLES then some .ARB_explicit_uniform_location else none

/-- The extension the constructor asks about before binding the sampler and
the uniform blocks by name, lines 218 to 220: only desktop builds have one. -/
def layoutBindingExtension (b : Build) : Option Extension :=
  if !b.MAGNUM_TARGET_GLES then some .ARB_shading_language_420pack else none

/-- Whether the context reports the extension supported for the version; a
build without the extension has nothing to report. -/
def reportedSupported (context : Context) (extension : Option Extension)
    (version : Version) : Bool :=
  match extension with
  | some e => context.isExtensionSupportedFor e version
  | none => false

/-- The writes of a texture unit to a sampler uniform in a trace: location
and unit, in order. -/
def samplerWrites (trace : List Event) : List (Int × Int) :=
  trace.filterMap fun
    | .setUniform location (.int unit) => some (location, unit)
    | _ => none

/-- The uniform block names looked up in a trace, in order. -/
def blockLookups (trace : List Event) : List String :=
  trace.filterMap fun
    | .uniformBlockIndex name => some name
    | _ => none

/-- The uniform block bindings set in a trace: block index and binding point,
in order. -/
def blockBindings (trace : List Event) : List (Nat × Int) :=
  trace.filterMap fun
    | .setUniformBlockBinding index binding => some (index, binding)
    | _ => none

/-- A concrete environment for the given build: every extension is reported
as `supported`, the driver links successfully. -/
def sampleEnv (b : Build) (supported : Bool) : Env :=
  { build := b
    context := ⟨fun versions => versions.headD .None, fun _ => supported, fun _ _ => supported⟩
    driver := ⟨7, fun _ => 3, true,
      fun name => Int.ofNat (["transformationProjectionMatrix", "textureMatrix",
        "backgroundColor", "color", "drawOffset", "vectorTexture"].indexOf name),
      fun name => name.length⟩
    hasGroup := true
    getString := fun name => name
    uniformDefaults := ⟨0, 1, 2, 3, 0⟩ }

/-- A concrete program with the given flags and draw count. -/
def sampleProgram (flags : Flags) (drawCount : Nat) : VectorGL :=
  { VectorGL.withId ⟨0, 1, 2, 3, 0⟩ 7 with
    flags := flags
    materialCount := 1
    drawCount := drawCount }

/-! ## Flags -/

theorem Flags.ge_UniformBuffers_of_ge_MultiDraw (s : Flags) (h : s.ge .MultiDraw = true) :
    s.ge .UniformBuffers = true := by
  simp only [Flags.ge, Flag.value, beq_iff_eq] at h ⊢
  have h2 : s.bits &&& (2 ||| 4) &&& 2 = (2 ||| 4) &&& 2 := by rw [h]
  rw [Nat.land_assoc] at h2
  exact h2

theorem Flags.not_ge_UniformBuffers_of_not_and_MultiDraw (s : Flags)
    (h : s.and .MultiDraw = false) : s.ge .UniformBuffers = false := by
  simp only [Flags.and, Flag.value, bne_eq_false_iff_eq] at h
  have h2 : s.bits &&& (2 ||| 4) &&& 2 = 0 &&& 2 := by rw [h]
  rw [Nat.land_assoc] at h2
  simp only [Flags.ge, Flag.value, beq_eq_false_iff_ne]
  intro h3
  rw [show (2 ||| 4) &&& 2 = 2 from rfl, h3] at h2
  exact absurd h2 (by decide)

/-- With `UniformBuffers` in a declared flag set the build is not an OpenGL
ES 2 build. -/
theorem Flags.not_GLES2_of_ge_UniformBuffers (s : Flags) (b : Build)
    (hd : s.declaredIn b = true) (h : s.ge .UniformBuffers = true) :
    b.MAGNUM_TARGET_GLES2 = false := by
  cases hg : b.MAGNUM_TARGET_GLES2 with
  | false => rfl
  | true =>
    simp only [Flags.declaredIn, hg, Bool.not_true, Bool.false_or, Bool.not_eq_true'] at hd
    rw [Flags.not_ge_UniformBuffers_of_not_and_MultiDraw s hd] at h
    exact absurd h (by decide)

/-! ## `compile()`: rejected or accepted -/

theorem compileBody_all_not_rejection (env : Env) (d : Nat) (c : Configuration) :
    ((compileBody env d c).trace.all fun e => !e.isRejection) = true := by
  simp only [compileBody, Run.emit, Run.ret, List.all_append, Bool.and_eq_true]
  repeat' apply And.intro
  all_goals first | rfl | (split_ifs <;> rfl)

theorem rejected_CORRADE_ASSERT (env : Env) (k : Run CompileState) (condition : Bool)
    (message : String) :
    CORRADE_ASSERT env.build condition message (CompileState.NoCreate env) k = k
      ∨ rejected env (CORRADE_ASSERT env.build condition message (CompileState.NoCreate env) k)
        = true := by
  cases condition
  · right
    cases hg : env.build.CORRADE_GRACEFUL_ASSERT <;>
      simp [CORRADE_ASSERT, rejected, Event.isRejection, hg]
  · exact Or.inl rfl

theorem MAGNUM_ASSERT_of_unsupported (env : Env) (k : Run CompileState)
    (extension : Extension) (h : env.context.isExtensionSupported extension = false) :
    MAGNUM_ASSERT_GL_EXTENSION_SUPPORTED env.context extension k
      = ⟨[.extensionRequired extension], .aborted⟩ := by
  simp [MAGNUM_ASSERT_GL_EXTENSION_SUPPORTED, h]

theorem rejected_MAGNUM_ASSERT (env : Env) (k : Run CompileState) (extension : Extension) :
    MAGNUM_ASSERT_GL_EXTENSION_SUPPORTED env.context extension k = k
      ∨ rejected env (MAGNUM_ASSERT_GL_EXTENSION_SUPPORTED env.context extension k) = true := by
  cases h : env.context.isExtensionSupported extension
  · right
    rw [MAGNUM_ASSERT_of_unsupported env k extension h]
    rfl
  · left
    simp [MAGNUM_ASSERT_GL_EXTENSION_SUPPORTED, h]

theorem assertCounts_eq_or_rejected (env : Env) (c : Configuration) (k : Run CompileState) :
    assertCounts env c k = k ∨ rejected env (assertCounts env c k) = true := by
  unfold assertCounts ifndef
  dsimp only
  split
  · exact Or.inl rfl
  · rcases rejected_CORRADE_ASSERT env
      (CORRADE_ASSERT env.build (!(c.flags.ge .UniformBuffers) || c.drawCount != 0)
        "Shaders::VectorGL: draw count can\x27t be zero" (CompileState.NoCreate env) k)
      (!(c.flags.ge .UniformBuffers) || c.materialCount != 0)
      "Shaders::VectorGL: material count can\x27t be zero" with h | h
    · rw [h]
      exact rejected_CORRADE_ASSERT env k _ _
    · exact Or.inr h

theorem assertUniformBuffersSupported_eq_or_rejected (env : Env) (c : Configuration)
    (k : Run CompileState) :
    assertUniformBuffersSupported env c k = k
      ∨ rejected env (assertUniformBuffersSupported env c k) = true := by
  unfold assertUniformBuffersSupported ifndef
  dsimp only
  split_ifs
  · exact Or.inl rfl
  · exact rejected_MAGNUM_ASSERT env k _
  · exact Or.inl rfl

theorem assertMultiDrawSupported_eq_or_rejected (env : Env) (c : Configuration)
    (k : Run CompileState) :
    assertMultiDrawSupported env c k = k
      ∨ rejected env (assertMultiDrawSupported env c k) = true := by
  unfold assertMultiDrawSupported ifndef
  dsimp only
  split_ifs
  · exact Or.inl rfl
  · exact rejected_MAGNUM_ASSERT env k _
  · exact rejected_MAGNUM_ASSERT env k _
  · exact rejected_MAGNUM_ASSERT env k _
  · exact Or.inl rfl

theorem rejected_assertCounts (env : Env) (c : Configuration) (k : Run CompileState)
    (h : rejected env k = true) : rejected env (assertCounts env c k) = true := by
  rcases assertCounts_eq_or_rejected env c k with h1 | h1
  · rw [h1]; exact h
  · exact h1

theorem rejected_assertUniformBuffersSupported (env : Env) (c : Configuration)
    (k : Run CompileState) (h : rejected env k = true) :
    rejected env (assertUniformBuffersSupported env c k) = true := by
  rcases assertUniformBuffersSupported_eq_or_rejected env c k with h1 | h1
  · rw [h1]; exact h
  · exact h1

theorem compile_eq_or_rejected (env : Env) (d : Nat) (c : Configuration) :
    compile env d c = compileBody env d c ∨ rejected env (compile env d c) = true := by
  unfold compile
  rcases assertMultiDrawSupported_eq_or_rejected env c (compileBody env d c) with h3 | h3
  · rw [h3]
    rcases assertUniformBuffersSupported_eq_or_rejected env c (compileBody env d c)
      with h2 | h2
    · rw [h2]
      exact assertCounts_eq_or_rejected env c _
    · exact Or.inr (rejected_assertCounts env c _ h2)
  · exact Or.inr (rejected_assertCounts env c _
      (rejected_assertUniformBuffersSupported env c _ h3))

theorem compile_of_accepted (env : Env) (d : Nat) (c : Configuration)
    (h : accepted env d c = true) : compile env d c = compileBody env d c := by
  rcases compile_eq_or_rejected env d c with h1 | h1
  · exact h1
  · exfalso
    unfold accepted at h
    unfold rejected at h1
    split at h1
    · rename_i e he
      rw [he] at h
      simp at h h1
      rw [h] at h1
      simp at h1
    · exact absurd h1 (by decide)

theorem accepted_of_compile_eq (env : Env) (d : Nat) (c : Configuration)
    (h : compile env d c = compileBody env d c) : accepted env d c = true := by
  unfold accepted
  rw [h]
  exact compileBody_all_not_rejection env d c

theorem compileBody_outcome (env : Env) (d : Nat) (c : Configuration) :
    ∃ state, (compileBody env d c).outcome = .returned state
      ∧ state.program.id = env.driver.createProgram
      ∧ state.program.flags = c.flags
      ∧ (env.build.MAGNUM_TARGET_GLES2 = false →
          state.program.materialCount = c.materialCount
            ∧ state.program.drawCount = c.drawCount) := by
  refine ⟨_, rfl, ?_, ?_, ?_⟩
  · simp only [VectorGL.NoInit, VectorGL.withId]; split <;> rfl
  · split <;> rfl
  · intro hg
    simp only [hg]
    exact ⟨rfl, rfl⟩

theorem compile_of_not_UniformBuffers (env : Env) (d : Nat) (c : Configuration)
    (h : c.flags.ge .UniformBuffers = false) : compile env d c = compileBody env d c := by
  have hm : c.flags.ge .MultiDraw = false := by
    cases hm : c.flags.ge .MultiDraw with
    | false => rfl
    | true => rw [Flags.ge_UniformBuffers_of_ge_MultiDraw _ hm] at h; exact absurd h (by decide)
  unfold compile assertCounts assertUniformBuffersSupported assertMultiDrawSupported
  simp only [ifndef, CORRADE_ASSERT, h, hm, Bool.not_false, Bool.true_or, if_true,
    Bool.false_eq_true, if_false, ite_self]

theorem compile_of_zero_count (env : Env) (d : Nat) (c : Configuration)
    (hg : env.build.MAGNUM_TARGET_GLES2 = false)
    (h : c.flags.ge .UniformBuffers = true) (hz : c.materialCount = 0 ∨ c.drawCount = 0) :
    ∃ message, compile env d c = ⟨[.assertion message],
      if env.build.CORRADE_GRACEFUL_ASSERT then .returned (CompileState.NoCreate env)
      else .aborted⟩ := by
  unfold compile assertCounts
  by_cases hm : c.materialCount = 0
  · exact ⟨"Shaders::VectorGL: material count can\x27t be zero",
      by simp [ifndef, CORRADE_ASSERT, hg, h, hm]⟩
  · have hdz : c.drawCount = 0 := hz.resolve_left hm
    exact ⟨"Shaders::VectorGL: draw count can\x27t be zero",
      by simp [ifndef, CORRADE_ASSERT, hg, h, hm, hdz]⟩

theorem compile_rejected_of_UniformBuffers_unsupported (env : Env) (d : Nat)
    (c : Configuration) (hg : env.build.MAGNUM_TARGET_GLES = false)
    (hs : env.context.isExtensionSupported .ARB_uniform_buffer_object = false)
    (hub : c.flags.ge .UniformBuffers = true) :
    rejected env (compile env d c) = true := by
  unfold compile
  apply rejected_assertCounts
  unfold assertUniformBuffersSupported
  simp only [ifndef, hg, Bool.false_eq_true, if_false, hub, if_true]
  rw [MAGNUM_ASSERT_of_unsupported env _ _ hs]
  rfl

theorem compile_rejected_of_MultiDraw_unsupported (env : Env) (d : Nat)
    (c : Configuration) (hg : env.build.MAGNUM_TARGET_GLES2 = false)
    (hs : env.context.isExtensionSupported (multiDrawExtension env.build) = false)
    (hmd : c.flags.ge .MultiDraw = true) :
    rejected env (compile env d c) = true := by
  unfold compile
  apply rejected_assertCounts
  apply rejected_assertUniformBuffersSupported
  unfold assertMultiDrawSupported
  simp only [ifndef, hg, Bool.false_eq_true, if_false, hmd, if_true]
  unfold multiDrawExtension at hs
  split_ifs at hs ⊢ <;> rw [MAGNUM_ASSERT_of_unsupported env _ _ hs] <;> rfl

theorem setDefaults_outcome (env : Env) (d : Nat) (self : VectorGL) :
    (setDefaults env d self).outcome = .returned self := by
  unfold setDefaults
  dsimp only
  split
  · rfl
  split
  · rfl
  rename_i h1 h2
  have hub : env.build.MAGNUM_TARGET_GLES2 = true ∨ self.flags.ge .UniformBuffers = false := by
    cases hg : env.build.MAGNUM_TARGET_GLES2 <;> cases hu : self.flags.ge .UniformBuffers <;>
      simp_all
  have h3 : self.setTransformationProjectionMatrix env.build (Matrix.identity (d + 1))
      = ⟨[.setUniform self.transformationProjectionMatrixUniform
            (.matrix (Matrix.identity (d + 1)))], .returned self⟩ := by
    unfold VectorGL.setTransformationProjectionMatrix ifndef CORRADE_ASSERT
    rcases hub with hub | hub <;> simp [hub, Run.emit, Run.ret]
  have h4 : ∀ color, (self.setColor env.build color).outcome = .returned self := by
    intro color
    unfold VectorGL.setColor ifndef CORRADE_ASSERT
    rcases hub with hub | hub <;> simp [hub, Run.emit, Run.ret]
  rw [h3]
  simp only [Run.andThen, Run.emit]
  cases ht : self.flags.and .TextureTransformation
  · simp [Run.ret, Run.andThen, Run.emit, h4]
  · have h5 : (self.setTextureMatrix env.build (Matrix.identity 3)).outcome = .returned self := by
      unfold VectorGL.setTextureMatrix ifndef CORRADE_ASSERT
      rcases hub with hub | hub <;> simp [hub, ht, Run.emit, Run.ret]
    simp [Run.andThen, Run.emit, h4, h5]

theorem resolveUniformLocations_configuration (env : Env) (state : CompileState)
    (self : VectorGL) :
    (resolveUniformLocations env state self).2.id = self.id
      ∧ (resolveUniformLocations env state self).2.flags = self.flags
      ∧ (resolveUniformLocations env state self).2.materialCount = self.materialCount
      ∧ (resolveUniformLocations env state self).2.drawCount = self.drawCount := by
  unfold resolveUniformLocations
  dsimp only
  split_ifs <;> exact ⟨rfl, rfl, rfl, rfl⟩

theorem ofCompileState_outcome (env : Env) (d : Nat) (state : CompileState) :
    (VectorGL.ofCompileState env d state).outcome =
      if env.build.CORRADE_GRACEFUL_ASSERT && state.program.id == 0 then
        .returned state.program
      else if env.driver.checkLink then
        .returned (resolveUniformLocations env state state.program).2
      else .aborted := by
  unfold VectorGL.ofCompileState CORRADE_INTERNAL_ASSERT_OUTPUT
  dsimp only
  split
  · rfl
  split
  · simp only [Run.emit, setDefaults_outcome]
  · rfl

theorem not_isCreation_of_rejected (env : Env) (r : Run CompileState)
    (h : rejected env r = true) : ∀ e ∈ r.trace, e.isCreation = false := by
  unfold rejected at h
  split at h
  · rename_i e he
    intro e2 he2
    rw [he] at he2
    simp only [List.mem_singleton] at he2
    subst he2
    simp only [Bool.and_eq_true] at h
    cases e2 <;> first | rfl | exact absurd h.1 (by simp [Event.isRejection])
  · exact absurd h (by decide)

theorem ofConfiguration_outcome (env : Env) (d : Nat) (c : Configuration) :
    (VectorGL.ofConfiguration env d c).outcome =
      match (compile env d c).outcome with
      | .returned state => (VectorGL.ofCompileState env d state).outcome
      | .aborted => .aborted := by
  unfold VectorGL.ofConfiguration Run.andThen
  split <;> rename_i h <;> simp only [h, Run.emit]

theorem ofConfiguration_trace (env : Env) (d : Nat) (c : Configuration) :
    (VectorGL.ofConfiguration env d c).trace =
      match (compile env d c).outcome with
      | .returned state => (compile env d c).trace ++ (VectorGL.ofCompileState env d state).trace
      | .aborted => (compile env d c).trace := by
  unfold VectorGL.ofConfiguration Run.andThen
  split <;> rename_i h <;> simp only [h, Run.emit]

theorem compile_aborted_of_MultiDraw_unsupported (env : Env) (d : Nat) (c : Configuration)
    (hg : env.build.MAGNUM_TARGET_GLES2 = false)
    (hm : c.materialCount ≠ 0) (hdc : c.drawCount ≠ 0)
    (hs : env.context.isExtensionSupported (multiDrawExtension env.build) = false)
    (hmd : c.flags.ge .MultiDraw = true) :
    (compile env d c).outcome = .aborted := by
  have h1 : ∀ k, assertCounts env c k = k := by
    intro k
    simp [assertCounts, ifndef, CORRADE_ASSERT, hm, hdc]
  have h3 : (assertMultiDrawSupported env c (compileBody env d c)).outcome = .aborted := by
    unfold assertMultiDrawSupported
    simp only [ifndef, hg, Bool.false_eq_true, if_false, hmd, if_true]
    unfold multiDrawExtension at hs
    split_ifs at hs ⊢ <;> rw [MAGNUM_ASSERT_of_unsupported env _ _ hs]
  unfold compile
  rw [h1]
  unfold assertUniformBuffersSupported ifndef MAGNUM_ASSERT_GL_EXTENSION_SUPPORTED
  split_ifs <;> first | exact h3 | rfl

theorem compile_of_supported (env : Env) (d : Nat) (c : Configuration)
    (hcounts : c.flags.ge .UniformBuffers = true → c.materialCount ≠ 0 ∧ c.drawCount ≠ 0)
    (hub : c.flags.ge .UniformBuffers = true →
      ∀ e, uniformBufferExtension env.build = some e → env.context.isExtensionSupported e = true)
    (hmd : c.flags.ge .MultiDraw = true →
      env.context.isExtensionSupported (multiDrawExtension env.build) = true) :
    compile env d c = compileBody env d c := by
  have h1 : ∀ k, assertCounts env c k = k := by
    intro k
    cases hu : c.flags.ge .UniformBuffers
    · simp [assertCounts, ifndef, CORRADE_ASSERT, hu]
    · simp [assertCounts, ifndef, CORRADE_ASSERT, (hcounts hu).1, (hcounts hu).2]
  have h2 : ∀ k, assertUniformBuffersSupported env c k = k := by
    intro k
    unfold assertUniformBuffersSupported ifndef MAGNUM_ASSERT_GL_EXTENSION_SUPPORTED
    split_ifs with hg hu hs
    · rfl
    · rfl
    · exact absurd (hub hu _ (by simp [uniformBufferExtension, hg])) hs
    · rfl
  have h3 : ∀ k, assertMultiDrawSupported env c k = k := by
    intro k
    unfold assertMultiDrawSupported ifndef
    dsimp only
    split_ifs with hg hm hg1 hw
    · rfl
    · have hsup := hmd hm
      simp only [Bool.not_eq_true', Bool.not_eq_false] at hg1
      simp only [multiDrawExtension, hg1, Bool.not_false, if_true] at hsup
      simp [MAGNUM_ASSERT_GL_EXTENSION_SUPPORTED, hsup]
    · have hsup := hmd hm
      simp only [Bool.not_eq_true', Bool.not_eq_false] at hg1 hw
      simp only [multiDrawExtension, hg1, hw, Bool.not_true, Bool.not_false,
        Bool.false_eq_true, if_true, if_false] at hsup
      simp [MAGNUM_ASSERT_GL_EXTENSION_SUPPORTED, hsup]
    · have hsup := hmd hm
      simp only [Bool.not_eq_true', Bool.not_eq_false] at hg1 hw
      simp only [multiDrawExtension, hg1, hw, Bool.not_true, Bool.not_false,
        Bool.false_eq_true, if_true, if_false] at hsup
      simp [MAGNUM_ASSERT_GL_EXTENSION_SUPPORTED, hsup]
    · rfl
  unfold compile
  rw [h1, h2, h3]

theorem violation_CORRADE_ASSERT_false {α : Type} [DecidableEq α] (b : Build)
    (message : String) (returnValue : α) (k : Run α) :
    violation b returnValue (CORRADE_ASSERT b false message returnValue k) = true := by
  simp [violation, CORRADE_ASSERT]

theorem violation_no_effect {α : Type} [DecidableEq α] (b : Build) (returnValue : α)
    (r : Run α) (h : violation b returnValue r = true) :
    uniformWrites r.trace = [] ∧ bufferBinds r.trace = [] := by
  unfold violation at h
  split at h
  · rename_i message he
    rw [he]
    exact ⟨rfl, rfl⟩
  · exact absurd h (by decide)

theorem setDefaults_eq (env : Env) (d : Nat) (self : VectorGL) :
    setDefaults env d self =
      ⟨if !env.build.MAGNUM_TARGET_GLES then []
        else if !env.build.MAGNUM_TARGET_GLES2 && self.flags.ge .UniformBuffers then []
        else [.setUniform self.transformationProjectionMatrixUniform
                (.matrix (Matrix.identity (d + 1)))]
          ++ (if self.flags.and .TextureTransformation then
              [.setUniform self.textureMatrixUniform (.matrix (Matrix.identity 3))] else [])
          ++ [.setUniform self.colorUniform (.color (Color4.ofValue 1))],
       .returned self⟩ := by
  unfold setDefaults
  dsimp only
  split
  · rfl
  split
  · rfl
  rename_i h1 h2
  have hub : env.build.MAGNUM_TARGET_GLES2 = true ∨ self.flags.ge .UniformBuffers = false := by
    cases hg : env.build.MAGNUM_TARGET_GLES2 <;> cases hu : self.flags.ge .UniformBuffers <;>
      simp_all
  have h3 : self.setTransformationProjectionMatrix env.build (Matrix.identity (d + 1))
      = ⟨[.setUniform self.transformationProjectionMatrixUniform
            (.matrix (Matrix.identity (d + 1)))], .returned self⟩ := by
    unfold VectorGL.setTransformationProjectionMatrix ifndef CORRADE_ASSERT
    rcases hub with hub | hub <;> simp [hub, Run.emit, Run.ret]
  have h4 : ∀ color, self.setColor env.build color
      = ⟨[.setUniform self.colorUniform (.color color)], .returned self⟩ := by
    intro color
    unfold VectorGL.setColor ifndef CORRADE_ASSERT
    rcases hub with hub | hub <;> simp [hub, Run.emit, Run.ret]
  rw [h3]
  simp only [Run.andThen, Run.emit]
  cases ht : self.flags.and .TextureTransformation
  · simp [Run.ret, Run.andThen, Run.emit, h4]
  · have h5 : self.setTextureMatrix env.build (Matrix.identity 3)
        = ⟨[.setUniform self.textureMatrixUniform (.matrix (Matrix.identity 3))],
          .returned self⟩ := by
      unfold VectorGL.setTextureMatrix ifndef CORRADE_ASSERT
      rcases hub with hub | hub <;> simp [hub, ht, Run.emit, Run.ret]
    simp [Run.andThen, Run.emit, h4, h5]

theorem ofCompileState_eq (env : Env) (d : Nat) (state : CompileState) :
    VectorGL.ofCompileState env d state =
      if env.build.CORRADE_GRACEFUL_ASSERT && state.program.id == 0 then
        ⟨[], .returned state.program⟩
      else if env.driver.checkLink then
        ⟨[.checkLink [.Vertex, .Fragment]]
          ++ ((resolveUniformLocations env state state.program).1
          ++ (resolveBindings env state (resolveUniformLocations env state state.program).2
          ++ (setDefaults env d (resolveUniformLocations env state state.program).2).trace)),
         .returned (resolveUniformLocations env state state.program).2⟩
      else ⟨[.checkLink [.Vertex, .Fragment]], .aborted⟩ := by
  unfold VectorGL.ofCompileState CORRADE_INTERNAL_ASSERT_OUTPUT
  dsimp only
  split
  · rfl
  split
  · simp only [Run.emit, setDefaults_outcome]
  · rfl

theorem uniformLookups_append (l1 l2 : List Event) :
    uniformLookups (l1 ++ l2) = uniformLookups l1 ++ uniformLookups l2 := by
  simp [uniformLookups]

theorem uniformLookups_setDefaults (env : Env) (d : Nat) (self : VectorGL) :
    uniformLookups (setDefaults env d self).trace = [] := by
  rw [setDefaults_eq]
  dsimp only
  split_ifs <;> rfl

theorem uniformLookups_resolveBindings (env : Env) (state : CompileState) (self : VectorGL) :
    uniformLookups (resolveBindings env state self) = []
      ∨ uniformLookups (resolveBindings env state self) = ["vectorTexture"] := by
  unfold resolveBindings
  dsimp only
  split_ifs <;> first | exact Or.inl rfl | exact Or.inr rfl

theorem uniformLookups_resolveUniformLocations (env : Env) (state : CompileState)
    (self : VectorGL) :
    uniformLookups (resolveUniformLocations env state self).1 =
      if !env.build.MAGNUM_TARGET_GLES
          && env.context.isExtensionSupportedFor .ARB_explicit_uniform_location state.version
      then []
      else if !env.build.MAGNUM_TARGET_GLES2 && self.flags.ge .UniformBuffers then
        if self.drawCount > 1 then ["drawOffset"] else []
      else ["transformationProjectionMatrix"]
        ++ (if self.flags.and .TextureTransformation then ["textureMatrix"] else [])
        ++ ["backgroundColor", "color"] := by
  unfold resolveUniformLocations
  dsimp only
  split_ifs <;> rfl

theorem compile_returned_cases (env : Env) (d : Nat) (c : Configuration)
    (state : CompileState) (h : (compile env d c).outcome = .returned state) :
    compile env d c = compileBody env d c ∨ state = CompileState.NoCreate env := by
  rcases compile_eq_or_rejected env d c with h1 | h1
  · exact Or.inl h1
  · right
    unfold rejected at h1
    split at h1
    · rw [h] at h1
      simp at h1
      exact h1.2
    · exact absurd h1 (by decide)

theorem drawOffset_lookup (env : Env) (d : Nat) (state : CompileState)
    (h : "drawOffset" ∈ uniformLookups (VectorGL.ofCompileState env d state).trace) :
    env.build.MAGNUM_TARGET_GLES2 = false ∧ state.program.flags.ge .UniformBuffers = true
      ∧ 1 < state.program.drawCount := by
  rw [ofCompileState_eq] at h
  split_ifs at h
  · simp [uniformLookups] at h
  · simp only [uniformLookups_append, uniformLookups_setDefaults, List.mem_append] at h
    rcases h with h | h | h | h
    · simp [uniformLookups] at h
    · rw [uniformLookups_resolveUniformLocations] at h
      split_ifs at h with h1 h2 h3
      · simp at h
      · simp only [Bool.and_eq_true, Bool.not_eq_true'] at h2
        exact ⟨h2.1, h2.2, h3⟩
      · simp at h
      · simp at h
      · simp at h
    · rcases uniformLookups_resolveBindings env state
        (resolveUniformLocations env state state.program).2 with h2 | h2 <;>
        rw [h2] at h <;> simp at h
    · simp at h
  · simp [uniformLookups] at h

theorem textureMatrix_lookup (env : Env) (d : Nat) (state : CompileState)
    (h : "textureMatrix" ∈ uniformLookups (VectorGL.ofCompileState env d state).trace) :
    state.program.flags.and .TextureTransformation = true := by
  rw [ofCompileState_eq] at h
  split_ifs at h
  · simp [uniformLookups] at h
  · simp only [uniformLookups_append, uniformLookups_setDefaults, List.mem_append] at h
    rcases h with h | h | h | h
    · simp [uniformLookups] at h
    · rw [uniformLookups_resolveUniformLocations] at h
      split_ifs at h with h1 h2 h3 h4
      · simp at h
      · simp at h
      · simp at h
      · exact h4
      · simp at h
    · rcases uniformLookups_resolveBindings env state
        (resolveUniformLocations env state state.program).2 with h2 | h2 <;>
        rw [h2] at h <;> simp at h
    · simp at h
  · simp [uniformLookups] at h

theorem ofCompileState_returned (env : Env) (d : Nat) (state : CompileState)
    (program : VectorGL)
    (h : (VectorGL.ofCompileState env d state).outcome = .returned program) :
    program.id = state.program.id ∧ program.flags = state.program.flags
      ∧ program.materialCount = state.program.materialCount
      ∧ program.drawCount = state.program.drawCount := by
  rw [ofCompileState_outcome] at h
  split_ifs at h
  · simp only [Outcome.returned.injEq] at h
    subst h
    exact ⟨rfl, rfl, rfl, rfl⟩
  · simp only [Outcome.returned.injEq] at h
    subst h
    exact resolveUniformLocations_configuration env state state.program

theorem ofCompileState_returns (env : Env) (d : Nat) (state : CompileState)
    (hl : env.driver.checkLink = true) :
    ∃ program, (VectorGL.ofCompileState env d state).outcome = .returned program := by
  rw [ofCompileState_outcome]
  simp only [hl, if_true]
  split <;> exact ⟨_, rfl⟩

theorem setTextureMatrix_violation (b : Build) (self : VectorGL) (matrix : Matrix)
    (ht : self.flags.and .TextureTransformation = false) :
    violation b self (self.setTextureMatrix b matrix) = true := by
  unfold VectorGL.setTextureMatrix ifndef
  rw [ht]
  split
  · exact violation_CORRADE_ASSERT_false _ _ _ _
  · cases hu : !(self.flags.ge .UniformBuffers)
    · exact violation_CORRADE_ASSERT_false _ _ _ _
    · simp only [CORRADE_ASSERT, if_true]
      exact violation_CORRADE_ASSERT_false _ _ _ _

theorem bindTextureTransformationBuffer_violation (b : Build) (self : VectorGL)
    (buffer : Nat) (range : Option (Int × Int))
    (ht : self.flags.and .TextureTransformation = false) :
    violation b self (self.bindTextureTransformationBuffer b buffer range) = true := by
  unfold VectorGL.bindTextureTransformationBuffer
  rw [ht]
  cases hu : self.flags.ge .UniformBuffers
  · exact violation_CORRADE_ASSERT_false _ _ _ _
  · simp only [CORRADE_ASSERT, if_true]
    exact violation_CORRADE_ASSERT_false _ _ _ _

theorem sourcesOf_append (type : ShaderType) (l1 l2 : List Event) :
    sourcesOf type (l1 ++ l2) = sourcesOf type l1 ++ sourcesOf type l2 := by
  simp [sourcesOf]

theorem sourcesOf_compileBody (env : Env) (d : Nat) (c : Configuration)
    (hd : c.flags.declaredIn env.build = true) :
    sourcesOf .Vertex (compileBody env d c).trace =
      [if c.flags.and .TextureTransformation then "#define TEXTURE_TRANSFORMATION\n" else "",
       if d = 2 then "#define TWO_DIMENSIONS\n" else "#define THREE_DIMENSIONS\n"]
      ++ (if c.flags.ge .UniformBuffers then
          ["#define UNIFORM_BUFFERS\n#define DRAW_COUNT " ++ toString c.drawCount ++ "\n",
           if c.flags.ge .MultiDraw then "#define MULTI_DRAW\n" else ""]
        else [])
      ++ [env.getString "generic.glsl", env.getString "Vector.vert"]
    ∧ sourcesOf .Fragment (compileBody env d c).trace =
      (if c.flags.ge .UniformBuffers then
          ["#define UNIFORM_BUFFERS\n#define DRAW_COUNT " ++ toString c.drawCount
            ++ "\n#define MATERIAL_COUNT " ++ toString c.materialCount ++ "\n",
           if c.flags.ge .MultiDraw then "#define MULTI_DRAW\n" else ""]
        else [])
      ++ [env.getString "generic.glsl", env.getString "Vector.frag"] := by
  have hub : (!env.build.MAGNUM_TARGET_GLES2 && c.flags.ge .UniformBuffers)
      = c.flags.ge .UniformBuffers := by
    cases hu : c.flags.ge .UniformBuffers
    · simp
    · simp [Flags.not_GLES2_of_ge_UniformBuffers _ _ hd hu]
  simp only [compileBody, Run.emit, Run.ret, sourcesOf_append, hub]
  have e1 : ∀ (type : ShaderType) (p : Bool),
      sourcesOf type (if p = true then [Event.importShaderResources] else []) = [] := by
    intro type p
    cases p <;> rfl
  have e2 : ∀ (type : ShaderType) (p q : Bool),
      sourcesOf type (if p = true then []
        else if q = true then []
        else [.bindAttributeLocation .Position "position",
          .bindAttributeLocation .TextureCoordinates "textureCoordinates"]) = [] := by
    intro type p q
    cases p <;> cases q <;> rfl
  rw [e1, e1, e2, e2]
  constructor
  · cases c.flags.ge .UniformBuffers <;> simp [sourcesOf]
  · cases c.flags.ge .UniformBuffers <;> simp [sourcesOf]

theorem uniformWrites_append (l1 l2 : List Event) :
    uniformWrites (l1 ++ l2) = uniformWrites l1 ++ uniformWrites l2 := by
  simp [uniformWrites]

theorem uniformWrites_resolveUniformLocations (env : Env) (state : CompileState)
    (self : VectorGL) : uniformWrites (resolveUniformLocations env state self).1 = [] := by
  unfold resolveUniformLocations
  dsimp only
  split_ifs <;> rfl

theorem uniformWrites_resolveBindings (env : Env) (state : CompileState) (self : VectorGL) :
    uniformWrites (resolveBindings env state self) =
      if !env.build.MAGNUM_TARGET_GLES
          && env.context.isExtensionSupportedFor .ARB_shading_language_420pack state.version
      then []
      else [(env.driver.uniformLocation "vectorTexture", .int TextureUnit)] := by
  unfold resolveBindings
  dsimp only
  split_ifs <;> rfl

theorem uniformWrites_setDefaults (env : Env) (d : Nat) (self : VectorGL) :
    uniformWrites (setDefaults env d self).trace =
      if !env.build.MAGNUM_TARGET_GLES then []
      else if !env.build.MAGNUM_TARGET_GLES2 && self.flags.ge .UniformBuffers then []
      else [(self.transformationProjectionMatrixUniform, .matrix (Matrix.identity (d + 1)))]
        ++ (if self.flags.and .TextureTransformation then
            [(self.textureMatrixUniform, .matrix (Matrix.identity 3))] else [])
        ++ [(self.colorUniform, .color ⟨1, 1, 1, 1⟩)] := by
  rw [setDefaults_eq]
  dsimp only
  split_ifs <;> rfl

theorem uniformWrites_ofCompileState (env : Env) (d : Nat) (state : CompileState)
    (hl : env.driver.checkLink = true) (hid : state.program.id ≠ 0) :
    uniformWrites (VectorGL.ofCompileState env d state).trace =
      uniformWrites (resolveBindings env state
        (resolveUniformLocations env state state.program).2)
      ++ uniformWrites
        (setDefaults env d (resolveUniformLocations env state state.program).2).trace := by
  rw [ofCompileState_eq]
  have h0 : (env.build.CORRADE_GRACEFUL_ASSERT && state.program.id == 0) = false := by
    simp [hid]
  simp only [h0, hl, Bool.false_eq_true, if_false, if_true, uniformWrites_append,
    uniformWrites_resolveUniformLocations]
  rfl

theorem resolveUniformLocations_direct (env : Env) (state : CompileState) (self : VectorGL)
    (hg : env.build.MAGNUM_TARGET_GLES = true)
    (hub : (!env.build.MAGNUM_TARGET_GLES2 && self.flags.ge .UniformBuffers) = false) :
    (resolveUniformLocations env state self).2.transformationProjectionMatrixUniform
        = env.driver.uniformLocation "transformationProjectionMatrix"
      ∧ (self.flags.and .TextureTransformation = true →
          (resolveUniformLocations env state self).2.textureMatrixUniform
            = env.driver.uniformLocation "textureMatrix")
      ∧ (resolveUniformLocations env state self).2.backgroundColorUniform
        = env.driver.uniformLocation "backgroundColor"
      ∧ (resolveUniformLocations env state self).2.colorUniform
        = env.driver.uniformLocation "color" := by
  unfold resolveUniformLocations
  simp only [hg, hub, Bool.not_true, Bool.false_and, Bool.false_eq_true, if_false]
  cases ht : self.flags.and .TextureTransformation <;> simp

theorem uniformLookups_ofCompileState (env : Env) (d : Nat) (state : CompileState)
    (hl : env.driver.checkLink = true) (hid : state.program.id ≠ 0) :
    uniformLookups (VectorGL.ofCompileState env d state).trace =
      uniformLookups (resolveUniformLocations env state state.program).1
      ++ uniformLookups (resolveBindings env state
        (resolveUniformLocations env state state.program).2) := by
  rw [ofCompileState_eq]
  have h0 : (env.build.CORRADE_GRACEFUL_ASSERT && state.program.id == 0) = false := by
    simp [hid]
  simp only [h0, hl, Bool.false_eq_true, if_false, if_true, uniformLookups_append,
    uniformLookups_setDefaults, List.append_nil]
  rfl

theorem uniformLookups_resolveBindings_eq (env : Env) (state : CompileState)
    (self : VectorGL) :
    uniformLookups (resolveBindings env state self) =
      if !env.build.MAGNUM_TARGET_GLES
          && env.context.isExtensionSupportedFor .ARB_shading_language_420pack state.version
      then []
      else ["vectorTexture"] := by
  unfold resolveBindings
  dsimp only
  split_ifs <;> rfl

theorem ofCompileState_trace_of_checkLink (env : Env) (d : Nat) (state : CompileState)
    (hc : Event.checkLink [.Vertex, .Fragment] ∈ (VectorGL.ofCompileState env d state).trace)
    (hl : env.driver.checkLink = true) :
    (VectorGL.ofCompileState env d state).trace =
      [.checkLink [.Vertex, .Fragment]]
        ++ ((resolveUniformLocations env state state.program).1
        ++ (resolveBindings env state (resolveUniformLocations env state state.program).2
        ++ (setDefaults env d (resolveUniformLocations env state state.program).2).trace)) := by
  rw [ofCompileState_eq] at hc ⊢
  split_ifs at hc ⊢
  · simp at hc
  · rfl

theorem samplerWrites_append (l1 l2 : List Event) :
    samplerWrites (l1 ++ l2) = samplerWrites l1 ++ samplerWrites l2 := by
  simp [samplerWrites]

theorem blockLookups_append (l1 l2 : List Event) :
    blockLookups (l1 ++ l2) = blockLookups l1 ++ blockLookups l2 := by
  simp [blockLookups]

theorem blockBindings_append (l1 l2 : List Event) :
    blockBindings (l1 ++ l2) = blockBindings l1 ++ blockBindings l2 := by
  simp [blockBindings]

theorem bindings_resolveUniformLocations (env : Env) (state : CompileState)
    (self : VectorGL) :
    samplerWrites (resolveUniformLocations env state self).1 = []
      ∧ blockLookups (resolveUniformLocations env state self).1 = []
      ∧ blockBindings (resolveUniformLocations env state self).1 = [] := by
  unfold resolveUniformLocations
  dsimp only
  split_ifs <;> exact ⟨rfl, rfl, rfl⟩

theorem bindings_setDefaults (env : Env) (d : Nat) (self : VectorGL) :
    samplerWrites (setDefaults env d self).trace = []
      ∧ blockLookups (setDefaults env d self).trace = []
      ∧ blockBindings (setDefaults env d self).trace = [] := by
  rw [setDefaults_eq]
  dsimp only
  split_ifs <;> exact ⟨rfl, rfl, rfl⟩

theorem bindings_ofCompileState (env : Env) (d : Nat) (state : CompileState)
    (hc : Event.checkLink [.Vertex, .Fragment] ∈ (VectorGL.ofCompileState env d state).trace)
    (hl : env.driver.checkLink = true) :
    samplerWrites (VectorGL.ofCompileState env d state).trace
        = samplerWrites (resolveBindings env state
            (resolveUniformLocations env state state.program).2)
      ∧ blockLookups (VectorGL.ofCompileState env d state).trace
        = blockLookups (resolveBindings env state
            (resolveUniformLocations env state state.program).2)
      ∧ blockBindings (VectorGL.ofCompileState env d state).trace
        = blockBindings (resolveBindings env state
            (resolveUniformLocations env state state.program).2) := by
  obtain ⟨a1, a2, a3⟩ := bindings_resolveUniformLocations env state state.program
  obtain ⟨b1, b2, b3⟩ := bindings_setDefaults env d
    (resolveUniformLocations env state state.program).2
  rw [ofCompileState_trace_of_checkLink env d state hc hl]
  simp only [samplerWrites_append, blockLookups_append, blockBindings_append, a1, a2, a3,
    b1, b2, b3, List.append_nil, List.nil_append]
  exact ⟨rfl, rfl, rfl⟩

theorem uniformLookups_of_checkLink (env : Env) (d : Nat) (state : CompileState)
    (hc : Event.checkLink [.Vertex, .Fragment] ∈ (VectorGL.ofCompileState env d state).trace)
    (hl : env.driver.checkLink = true) :
    uniformLookups (VectorGL.ofCompileState env d state).trace =
      uniformLookups (resolveUniformLocations env state state.program).1
      ++ uniformLookups (resolveBindings env state
        (resolveUniformLocations env state state.program).2) := by
  rw [ofCompileState_trace_of_checkLink env d state hc hl]
  simp only [uniformLookups_append, uniformLookups_setDefaults, List.append_nil]
  rfl

theorem reportedSupported_explicitUniformLocation (env : Env) (version : Version) :
    reportedSupported env.context (explicitUniformLocationExtension env.build) version
      = (!env.build.MAGNUM_TARGET_GLES
        && env.context.isExtensionSupportedFor .ARB_explicit_uniform_location version) := by
  unfold explicitUniformLocationExtension
  cases env.build.MAGNUM_TARGET_GLES <;> rfl

theorem reportedSupported_layoutBinding (env : Env) (version : Version) :
    reportedSupported env.context (layoutBindingExtension env.build) version
      = (!env.build.MAGNUM_TARGET_GLES
        && env.context.isExtensionSupportedFor .ARB_shading_language_420pack version) := by
  unfold layoutBindingExtension
  cases env.build.MAGNUM_TARGET_GLES <;> rfl

/-! ## The claims -/

/-- C1, amended. In a build with graceful assertions, a configuration with
`UniformBuffers` and a zero material or draw count makes `compile()` log one
assertion message and return the not-created sentinel, whose program id is 0,
without creating a shader or program object or adding a source, and the
constructor given a state with program id 0 returns at once, issuing nothing.
In a build without graceful assertions the same assertion terminates the
process instead, again before anything is created. Without `UniformBuffers`
no precondition of `compile()` fails, whatever the counts. -/
theorem compile_zero_count_rejected (env : Env) (dimensions : Nat)
    (configuration : Configuration)
    (hd : configuration.flags.declaredIn env.build = true) :
    (configuration.flags.ge .UniformBuffers = true →
      (configuration.materialCount = 0 ∨ configuration.drawCount = 0) →
        (∃ message, (compile env dimensions configuration).trace = [.assertion message])
        ∧ (∀ e ∈ (compile env dimensions configuration).trace, e.isCreation = false)
        ∧ (compile env dimensions configuration).outcome =
            (if env.build.CORRADE_GRACEFUL_ASSERT then .returned (CompileState.NoCreate env)
             else .aborted)
        ∧ (CompileState.NoCreate env).program.id = 0
        ∧ (env.build.CORRADE_GRACEFUL_ASSERT = true →
            ∀ state : CompileState, state.program.id = 0 →
              VectorGL.ofCompileState env dimensions state = ⟨[], .returned state.program⟩))
    ∧ (configuration.flags.ge .UniformBuffers = false →
        accepted env dimensions configuration = true
        ∧ ∃ state, (compile env dimensions configuration).outcome = .returned state
            ∧ state.program.id = env.driver.createProgram) := by
  constructor
  · intro hub hz
    have hg := Flags.not_GLES2_of_ge_UniformBuffers _ _ hd hub
    obtain ⟨message, hm⟩ := compile_of_zero_count env dimensions configuration hg hub hz
    refine ⟨⟨message, by rw [hm]⟩, ?_, by rw [hm], rfl, ?_⟩
    · intro e he
      rw [hm] at he
      simp only [List.mem_singleton] at he
      subst he
      rfl
    · intro hgr state hid
      simp [VectorGL.ofCompileState, hgr, hid, Run.ret]
  · intro hub
    have hc := compile_of_not_UniformBuffers env dimensions configuration hub
    refine ⟨accepted_of_compile_eq _ _ _ hc, ?_⟩
    obtain ⟨state, hs, hid, _⟩ := compileBody_outcome env dimensions configuration
    exact ⟨state, by rw [hc]; exact hs, hid⟩

/-- Witness of C1: a desktop build with graceful assertions, `UniformBuffers`
and material count 0. -/
theorem compile_zero_count_rejected_witness :
    (∃ message, (compile (sampleEnv ⟨.desktop, true, false⟩ true) 2 ⟨⟨2⟩, 0, 1⟩).trace
        = [.assertion message])
    ∧ (compile (sampleEnv ⟨.desktop, true, false⟩ true) 2 ⟨⟨2⟩, 0, 1⟩).outcome
        = .returned (CompileState.NoCreate (sampleEnv ⟨.desktop, true, false⟩ true)) :=
  have h := (compile_zero_count_rejected (sampleEnv ⟨.desktop, true, false⟩ true) 2
    ⟨⟨2⟩, 0, 1⟩ (by decide)).1 (by decide) (Or.inl rfl)
  ⟨h.1, h.2.2.1⟩

/-- Counterexample to C1 as stated: in a desktop build without graceful
assertions, `compile()` of a `UniformBuffers` configuration with material
count 0 does not return the not-created sentinel; the process is terminated. -/
theorem compile_zero_count_aborts_without_graceful_assert :
    Flags.ge ⟨2⟩ .UniformBuffers = true
    ∧ (compile (sampleEnv ⟨.desktop, false, false⟩ true) 2 ⟨⟨2⟩, 0, 1⟩).outcome = .aborted
    ∧ (compile (sampleEnv ⟨.desktop, false, false⟩ true) 2 ⟨⟨2⟩, 0, 1⟩).outcome
        ≠ .returned (CompileState.NoCreate (sampleEnv ⟨.desktop, false, false⟩ true)) := by
  decide

/-- C2. A configuration with `UniformBuffers` for which the context reports
the uniform-buffer extension of the build unsupported, and a configuration
with `MultiDraw` for which it reports the multi-draw extension of the build
unsupported, are rejected by `compile()`: the run is one failure message, with
no shader or program object created and no source added. Construction with
flags `UniformBuffers|MultiDraw`, material count 4 and draw count 10 returns
a program only if the multi-draw extension is reported supported; it does
return one, with those flags, when the required extensions are supported and
the link check succeeds. -/
theorem compile_rejected_of_unsupported_extension (env : Env) (dimensions : Nat)
    (configuration : Configuration)
    (hd : configuration.flags.declaredIn env.build = true) :
    (configuration.flags.ge .UniformBuffers = true →
      (∃ e, uniformBufferExtension env.build = some e
        ∧ env.context.isExtensionSupported e = false) →
      rejected env (compile env dimensions configuration) = true
      ∧ ∀ e ∈ (compile env dimensions configuration).trace, e.isCreation = false)
    ∧ (configuration.flags.ge .MultiDraw = true →
      env.context.isExtensionSupported (multiDrawExtension env.build) = false →
      rejected env (compile env dimensions configuration) = true
      ∧ ∀ e ∈ (compile env dimensions configuration).trace, e.isCreation = false)
    ∧ (configuration = ⟨⟨Flag.UniformBuffers.value ||| Flag.MultiDraw.value⟩, 4, 10⟩ →
      (∀ program, (VectorGL.ofConfiguration env dimensions configuration).outcome
          = .returned program →
        env.context.isExtensionSupported (multiDrawExtension env.build) = true)
      ∧ ((∀ e, uniformBufferExtension env.build = some e →
            env.context.isExtensionSupported e = true) →
          env.context.isExtensionSupported (multiDrawExtension env.build) = true →
          env.driver.checkLink = true →
          ∃ program, (VectorGL.ofConfiguration env dimensions configuration).outcome
              = .returned program
            ∧ program.flags = configuration.flags)) := by
  refine ⟨?_, ?_, ?_⟩
  · rintro hub ⟨e, he, hs⟩
    have hg : env.build.MAGNUM_TARGET_GLES = false := by
      cases hg : env.build.MAGNUM_TARGET_GLES
      · rfl
      · simp [uniformBufferExtension, hg] at he
    simp only [uniformBufferExtension, hg, Bool.not_false, if_true, Option.some.injEq] at he
    subst he
    have hr := compile_rejected_of_UniformBuffers_unsupported env dimensions configuration
      hg hs hub
    exact ⟨hr, not_isCreation_of_rejected env _ hr⟩
  · intro hmd hs
    have hg := Flags.not_GLES2_of_ge_UniformBuffers _ _ hd
      (Flags.ge_UniformBuffers_of_ge_MultiDraw _ hmd)
    have hr := compile_rejected_of_MultiDraw_unsupported env dimensions configuration
      hg hs hmd
    exact ⟨hr, not_isCreation_of_rejected env _ hr⟩
  · intro hc
    subst hc
    have hmd : Flags.ge ⟨Flag.UniformBuffers.value ||| Flag.MultiDraw.value⟩ .MultiDraw = true :=
      by decide
    have hub : Flags.ge ⟨Flag.UniformBuffers.value ||| Flag.MultiDraw.value⟩ .UniformBuffers
      = true := by decide
    have hg := Flags.not_GLES2_of_ge_UniformBuffers _ _ hd hub
    constructor
    · intro program hp
      cases hs : env.context.isExtensionSupported (multiDrawExtension env.build)
      · rw [ofConfiguration_outcome, compile_aborted_of_MultiDraw_unsupported env dimensions
          _ hg (by decide) (by decide) hs hmd] at hp
        exact absurd hp (by simp)
      · rfl
    · intro hsu hsm hl
      have hc := compile_of_supported env dimensions
        ⟨⟨Flag.UniformBuffers.value ||| Flag.MultiDraw.value⟩, 4, 10⟩
        (fun _ => ⟨by decide, by decide⟩) (fun _ => hsu) (fun _ => hsm)
      obtain ⟨state, hs, hid, hf, _⟩ := compileBody_outcome env dimensions
        ⟨⟨Flag.UniformBuffers.value ||| Flag.MultiDraw.value⟩, 4, 10⟩
      rw [ofConfiguration_outcome, hc, hs]
      simp only [ofCompileState_outcome, hl, if_true]
      split
      · exact ⟨_, rfl, hf⟩
      · exact ⟨_, rfl, by
          rw [(resolveUniformLocations_configuration env state state.program).2.1]
          exact hf⟩

/-- Witness of C2: a desktop build whose context reports every extension
unsupported rejects a configuration with `UniformBuffers`. -/
theorem compile_rejected_of_unsupported_extension_witness :
    rejected (sampleEnv ⟨.desktop, false, false⟩ false)
      (compile (sampleEnv ⟨.desktop, false, false⟩ false) 2 ⟨⟨2⟩, 1, 1⟩) = true :=
  ((compile_rejected_of_unsupported_extension (sampleEnv ⟨.desktop, false, false⟩ false) 2
    ⟨⟨2⟩, 1, 1⟩ (by decide)).1 (by decide)
    ⟨.ARB_uniform_buffer_object, by decide, by decide⟩).1

/-- C3. For every configuration accepted by `compile()`, `compile()` returns
a state, every program the constructor returns for that state has the flags
of the configuration and, in builds where the counts exist, its material and
draw counts, and the constructor does return a program when the link check
succeeds. -/
theorem compile_then_construct_keeps_configuration (env : Env) (dimensions : Nat)
    (configuration : Configuration)
    (ha : accepted env dimensions configuration = true) :
    ∃ state, (compile env dimensions configuration).outcome = .returned state
      ∧ (∀ program, (VectorGL.ofCompileState env dimensions state).outcome
            = .returned program →
          program.flags = configuration.flags
          ∧ (env.build.MAGNUM_TARGET_GLES2 = false →
              program.materialCount = configuration.materialCount
              ∧ program.drawCount = configuration.drawCount))
      ∧ (env.driver.checkLink = true →
          ∃ program, (VectorGL.ofCompileState env dimensions state).outcome
            = .returned program) := by
  obtain ⟨state, hs, _, hf, hcounts⟩ := compileBody_outcome env dimensions configuration
  have hr := resolveUniformLocations_configuration env state state.program
  refine ⟨state, by rw [compile_of_accepted env dimensions configuration ha]; exact hs, ?_, ?_⟩
  · intro program hp
    rw [ofCompileState_outcome] at hp
    split_ifs at hp
    · simp only [Outcome.returned.injEq] at hp
      subst hp
      exact ⟨hf, hcounts⟩
    · simp only [Outcome.returned.injEq] at hp
      subst hp
      exact ⟨hr.2.1.trans hf, fun hg => ⟨hr.2.2.1.trans (hcounts hg).1,
        hr.2.2.2.trans (hcounts hg).2⟩⟩
  · intro hl
    rw [ofCompileState_outcome]
    simp only [hl, if_true]
    split <;> exact ⟨_, rfl⟩

/-- Witness of C3: an OpenGL ES 3 build, all three flags, counts 4 and 10. -/
theorem compile_then_construct_keeps_configuration_witness :
    ∃ state, (compile (sampleEnv ⟨.gles3, true, false⟩ true) 3 ⟨⟨7⟩, 4, 10⟩).outcome
        = .returned state
      ∧ (∀ program, (VectorGL.ofCompileState (sampleEnv ⟨.gles3, true, false⟩ true) 3
            state).outcome = .returned program →
          program.flags = (⟨⟨7⟩, 4, 10⟩ : Configuration).flags
          ∧ ((sampleEnv ⟨.gles3, true, false⟩ true).build.MAGNUM_TARGET_GLES2 = false →
              program.materialCount = (⟨⟨7⟩, 4, 10⟩ : Configuration).materialCount
              ∧ program.drawCount = (⟨⟨7⟩, 4, 10⟩ : Configuration).drawCount))
      ∧ ((sampleEnv ⟨.gles3, true, false⟩ true).driver.checkLink = true →
          ∃ program, (VectorGL.ofCompileState (sampleEnv ⟨.gles3, true, false⟩ true) 3
            state).outcome = .returned program) :=
  compile_then_construct_keeps_configuration (sampleEnv ⟨.gles3, true, false⟩ true) 3
    ⟨⟨7⟩, 4, 10⟩ (by decide)

/-- C4. On a program with `UniformBuffers`, each of the four direct-uniform
setters takes the precondition-violation path and writes no uniform; on a
program without `UniformBuffers`, `setDrawOffset` and every buffer-binding
function, for the whole buffer and for a range, takes the
precondition-violation path and issues no uniform write and no buffer bind. -/
theorem wrong_data_path_is_violation (b : Build) (self : VectorGL)
    (hd : self.flags.declaredIn b = true) :
    (self.flags.ge .UniformBuffers = true → ∀ (matrix : Matrix) (color : Color4),
      (violation b self (self.setTransformationProjectionMatrix b matrix) = true
        ∧ uniformWrites (self.setTransformationProjectionMatrix b matrix).trace = [])
      ∧ (violation b self (self.setTextureMatrix b matrix) = true
        ∧ uniformWrites (self.setTextureMatrix b matrix).trace = [])
      ∧ (violation b self (self.setBackgroundColor b color) = true
        ∧ uniformWrites (self.setBackgroundColor b color).trace = [])
      ∧ (violation b self (self.setColor b color) = true
        ∧ uniformWrites (self.setColor b color).trace = []))
    ∧ (self.flags.ge .UniformBuffers = false →
      ∀ (offset buffer : Nat) (range : Option (Int × Int)),
      (violation b self (self.setDrawOffset b offset) = true
        ∧ uniformWrites (self.setDrawOffset b offset).trace = []
        ∧ bufferBinds (self.setDrawOffset b offset).trace = [])
      ∧ (violation b self (self.bindTransformationProjectionBuffer b buffer range) = true
        ∧ uniformWrites (self.bindTransformationProjectionBuffer b buffer range).trace = []
        ∧ bufferBinds (self.bindTransformationProjectionBuffer b buffer range).trace = [])
      ∧ (violation b self (self.bindDrawBuffer b buffer range) = true
        ∧ uniformWrites (self.bindDrawBuffer b buffer range).trace = []
        ∧ bufferBinds (self.bindDrawBuffer b buffer range).trace = [])
      ∧ (violation b self (self.bindTextureTransformationBuffer b buffer range) = true
        ∧ uniformWrites (self.bindTextureTransformationBuffer b buffer range).trace = []
        ∧ bufferBinds (self.bindTextureTransformationBuffer b buffer range).trace = [])
      ∧ (violation b self (self.bindMaterialBuffer b buffer range) = true
        ∧ uniformWrites (self.bindMaterialBuffer b buffer range).trace = []
        ∧ bufferBinds (self.bindMaterialBuffer b buffer range).trace = [])) := by
  constructor
  · intro hub matrix color
    have hg := Flags.not_GLES2_of_ge_UniformBuffers _ _ hd hub
    have h1 : violation b self (self.setTransformationProjectionMatrix b matrix) = true := by
      simp only [VectorGL.setTransformationProjectionMatrix, ifndef, hg, hub, Bool.not_true,
        Bool.false_eq_true, if_false]
      exact violation_CORRADE_ASSERT_false _ _ _ _
    have h2 : violation b self (self.setTextureMatrix b matrix) = true := by
      simp only [VectorGL.setTextureMatrix, ifndef, hg, hub, Bool.not_true,
        Bool.false_eq_true, if_false]
      exact violation_CORRADE_ASSERT_false _ _ _ _
    have h3 : violation b self (self.setBackgroundColor b color) = true := by
      simp only [VectorGL.setBackgroundColor, ifndef, hg, hub, Bool.not_true,
        Bool.false_eq_true, if_false]
      exact violation_CORRADE_ASSERT_false _ _ _ _
    have h4 : violation b self (self.setColor b color) = true := by
      simp only [VectorGL.setColor, ifndef, hg, hub, Bool.not_true,
        Bool.false_eq_true, if_false]
      exact violation_CORRADE_ASSERT_false _ _ _ _
    exact ⟨⟨h1, (violation_no_effect _ _ _ h1).1⟩, ⟨h2, (violation_no_effect _ _ _ h2).1⟩,
      ⟨h3, (violation_no_effect _ _ _ h3).1⟩, ⟨h4, (violation_no_effect _ _ _ h4).1⟩⟩
  · intro hub offset buffer range
    have h1 : violation b self (self.setDrawOffset b offset) = true := by
      simp only [VectorGL.setDrawOffset, hub]
      exact violation_CORRADE_ASSERT_false _ _ _ _
    have h2 : violation b self (self.bindTransformationProjectionBuffer b buffer range)
        = true := by
      simp only [VectorGL.bindTransformationProjectionBuffer, hub]
      exact violation_CORRADE_ASSERT_false _ _ _ _
    have h3 : violation b self (self.bindDrawBuffer b buffer range) = true := by
      simp only [VectorGL.bindDrawBuffer, hub]
      exact violation_CORRADE_ASSERT_false _ _ _ _
    have h4 : violation b self (self.bindTextureTransformationBuffer b buffer range)
        = true := by
      simp only [VectorGL.bindTextureTransformationBuffer, hub]
      exact violation_CORRADE_ASSERT_false _ _ _ _
    have h5 : violation b self (self.bindMaterialBuffer b buffer range) = true := by
      simp only [VectorGL.bindMaterialBuffer, hub]
      exact violation_CORRADE_ASSERT_false _ _ _ _
    exact ⟨⟨h1, violation_no_effect _ _ _ h1⟩, ⟨h2, violation_no_effect _ _ _ h2⟩,
      ⟨h3, violation_no_effect _ _ _ h3⟩, ⟨h4, violation_no_effect _ _ _ h4⟩,
      ⟨h5, violation_no_effect _ _ _ h5⟩⟩

/-- Witness of C4: a desktop program with `UniformBuffers` rejects
`setColor`. -/
theorem wrong_data_path_is_violation_witness :
    violation ⟨.desktop, true, false⟩ (sampleProgram ⟨2⟩ 1)
      (VectorGL.setColor ⟨.desktop, true, false⟩ (sampleProgram ⟨2⟩ 1) ⟨1, 1, 1, 1⟩) = true :=
  ((wrong_data_path_is_violation ⟨.desktop, true, false⟩ (sampleProgram ⟨2⟩ 1)
    (by decide)).1 (by decide) (Matrix.identity 3) ⟨1, 1, 1, 1⟩).2.2.2.1

/-- C5. On a program with `UniformBuffers` and a draw count above 1,
`setDrawOffset(offset)` with `offset >= drawCount` takes the
precondition-violation path and writes no uniform, and with
`offset < drawCount` it issues exactly one call, the write of the offset to
the draw-offset uniform, and returns the program. -/
theorem setDrawOffset_bounds (b : Build) (self : VectorGL) (offset : Nat)
    (hub : self.flags.ge .UniformBuffers = true) (hdc : 1 < self.drawCount) :
    (self.drawCount ≤ offset →
      violation b self (self.setDrawOffset b offset) = true
      ∧ uniformWrites (self.setDrawOffset b offset).trace = [])
    ∧ (offset < self.drawCount →
      self.setDrawOffset b offset
        = ⟨[.setUniform self.drawOffsetUniform (.unsignedInt offset)], .returned self⟩
      ∧ uniformWrites (self.setDrawOffset b offset).trace
        = [(self.drawOffsetUniform, .unsignedInt offset)]) := by
  constructor
  · intro ho
    have h1 : violation b self (self.setDrawOffset b offset) = true := by
      simp only [VectorGL.setDrawOffset, hub, Nat.not_lt.mpr ho, decide_False]
      simp [CORRADE_ASSERT, violation]
    exact ⟨h1, (violation_no_effect _ _ _ h1).1⟩
  · intro ho
    have h1 : self.setDrawOffset b offset
        = ⟨[.setUniform self.drawOffsetUniform (.unsignedInt offset)], .returned self⟩ := by
      simp [VectorGL.setDrawOffset, CORRADE_ASSERT, hub, ho, hdc, Run.emit, Run.ret]
    rw [h1]
    exact ⟨rfl, rfl⟩

/-- Witness of C5: ten draws, offset 3. -/
theorem setDrawOffset_bounds_witness :
    VectorGL.setDrawOffset ⟨.gles3, false, false⟩ (sampleProgram ⟨2⟩ 10) 3
      = ⟨[.setUniform 0 (.unsignedInt 3)], .returned (sampleProgram ⟨2⟩ 10)⟩ :=
  ((setDrawOffset_bounds ⟨.gles3, false, false⟩ (sampleProgram ⟨2⟩ 10) 3
    (by decide) (by decide)).2 (by decide)).1

/-- C6. For a configuration with `UniformBuffers` and draw count 1, whatever
the context and the driver answer: the constructor, given the state
`compile()` returned, never looks up the location of the draw-offset uniform,
and `setDrawOffset(0)` on the program it returns writes no uniform. When the
configuration is accepted, `compile()` returns a state, the constructor
returns a program for it if the link check succeeds, and on every program it
returns `setDrawOffset(0)` is accepted: it issues no call at all and returns
the program as it was. -/
theorem single_draw_elides_draw_offset (env : Env) (dimensions : Nat)
    (configuration : Configuration)
    (hd : configuration.flags.declaredIn env.build = true)
    (hub : configuration.flags.ge .UniformBuffers = true)
    (hdc : configuration.drawCount = 1) :
    (∀ state, (compile env dimensions configuration).outcome = .returned state →
      "drawOffset" ∉ uniformLookups (VectorGL.ofCompileState env dimensions state).trace
      ∧ ∀ program, (VectorGL.ofCompileState env dimensions state).outcome
            = .returned program →
          uniformWrites (program.setDrawOffset env.build 0).trace = [])
    ∧ (accepted env dimensions configuration = true →
      ∃ state, (compile env dimensions configuration).outcome = .returned state
        ∧ (∀ program, (VectorGL.ofCompileState env dimensions state).outcome
              = .returned program →
            program.setDrawOffset env.build 0 = ⟨[], .returned program⟩)
        ∧ (env.driver.checkLink = true →
            ∃ program, (VectorGL.ofCompileState env dimensions state).outcome
              = .returned program)) := by
  have hg := Flags.not_GLES2_of_ge_UniformBuffers _ _ hd hub
  obtain ⟨body, hb, _, hf, hcounts⟩ := compileBody_outcome env dimensions configuration
  have hbody : ∀ program, (VectorGL.ofCompileState env dimensions body).outcome
      = .returned program → program.setDrawOffset env.build 0 = ⟨[], .returned program⟩ := by
    intro program hp
    obtain ⟨_, hpf, _, hpd⟩ := ofCompileState_returned env dimensions body program hp
    have hflags : program.flags.ge .UniformBuffers = true := by rw [hpf, hf]; exact hub
    have hcount : program.drawCount = 1 := by rw [hpd, (hcounts hg).2, hdc]
    simp [VectorGL.setDrawOffset, CORRADE_ASSERT, hflags, hcount, Run.emit, Run.ret]
  constructor
  · intro state hs
    rcases compile_returned_cases env dimensions configuration state hs with h1 | h1
    · rw [h1, hb] at hs
      simp only [Outcome.returned.injEq] at hs
      subst hs
      constructor
      · intro hmem
        obtain ⟨_, _, hlt⟩ := drawOffset_lookup env dimensions body hmem
        rw [(hcounts hg).2, hdc] at hlt
        exact absurd hlt (by decide)
      · intro program hp
        rw [hbody program hp]
        rfl
    · subst h1
      constructor
      · intro hmem
        obtain ⟨_, _, hlt⟩ := drawOffset_lookup env dimensions _ hmem
        exact absurd hlt (by simp [CompileState.NoCreate, VectorGL.NoCreate, VectorGL.withId])
      · intro program hp
        obtain ⟨_, hpf, _, _⟩ := ofCompileState_returned env dimensions _ program hp
        have hflags : program.flags.ge .UniformBuffers = false := by
          rw [hpf]
          simp [CompileState.NoCreate, VectorGL.NoCreate, VectorGL.withId, Flags.ge, Flag.value]
        have hv : violation env.build program (program.setDrawOffset env.build 0) = true := by
          simp only [VectorGL.setDrawOffset, hflags]
          exact violation_CORRADE_ASSERT_false _ _ _ _
        exact (violation_no_effect _ _ _ hv).1
  · intro ha
    exact ⟨body, by rw [compile_of_accepted env dimensions configuration ha]; exact hb,
      hbody, ofCompileState_returns env dimensions body⟩

/-- Witness of C6: an OpenGL ES 3 build, `UniformBuffers`, one material and
one draw. -/
theorem single_draw_elides_draw_offset_witness :
    ∃ state, (compile (sampleEnv ⟨.gles3, false, false⟩ false) 2 ⟨⟨2⟩, 1, 1⟩).outcome
        = .returned state
      ∧ (∀ program, (VectorGL.ofCompileState (sampleEnv ⟨.gles3, false, false⟩ false) 2
            state).outcome = .returned program →
          program.setDrawOffset (sampleEnv ⟨.gles3, false, false⟩ false).build 0
            = ⟨[], .returned program⟩)
      ∧ ((sampleEnv ⟨.gles3, false, false⟩ false).driver.checkLink = true →
          ∃ program, (VectorGL.ofCompileState (sampleEnv ⟨.gles3, false, false⟩ false) 2
            state).outcome = .returned program) :=
  (single_draw_elides_draw_offset (sampleEnv ⟨.gles3, false, false⟩ false) 2 ⟨⟨2⟩, 1, 1⟩
    (by decide) (by decide) rfl).2 (by decide)

/-- C7. On a program without `TextureTransformation`, `setTextureMatrix` and
both overloads of `bindTextureTransformationBuffer` take the
precondition-violation path and issue no uniform write and no buffer bind,
whether or not the program uses uniform buffers. A configuration with all
flags clear is accepted; the constructor never looks up the texture-matrix
uniform for it, returns a program if the link check succeeds, and every
program it returns is on the direct-uniform path and rejects
`setTextureMatrix`. With `TextureTransformation` set, `setTextureMatrix` on a
program without `UniformBuffers` is exactly one uniform write, and
`bindTextureTransformationBuffer` on a program with `UniformBuffers` is
exactly one buffer bind; both return the program. -/
theorem texture_transformation_required (env : Env) (dimensions : Nat) (self : VectorGL)
    (matrix : Matrix) (buffer : Nat) (range : Option (Int × Int)) :
    (self.flags.and .TextureTransformation = false →
      (violation env.build self (self.setTextureMatrix env.build matrix) = true
        ∧ uniformWrites (self.setTextureMatrix env.build matrix).trace = []
        ∧ bufferBinds (self.setTextureMatrix env.build matrix).trace = [])
      ∧ (violation env.build self
            (self.bindTextureTransformationBuffer env.build buffer range) = true
        ∧ uniformWrites (self.bindTextureTransformationBuffer env.build buffer range).trace = []
        ∧ bufferBinds (self.bindTextureTransformationBuffer env.build buffer range).trace = []))
    ∧ (∀ configuration : Configuration, configuration.flags = ⟨0⟩ →
      accepted env dimensions configuration = true
      ∧ ∃ state, (compile env dimensions configuration).outcome = .returned state
        ∧ "textureMatrix" ∉ uniformLookups (VectorGL.ofCompileState env dimensions state).trace
        ∧ (∀ program, (VectorGL.ofCompileState env dimensions state).outcome
              = .returned program →
            program.flags.ge .UniformBuffers = false
            ∧ violation env.build program (program.setTextureMatrix env.build matrix) = true)
        ∧ (env.driver.checkLink = true →
            ∃ program, (VectorGL.ofCompileState env dimensions state).outcome
              = .returned program))
    ∧ (self.flags.and .TextureTransformation = true →
      (self.flags.ge .UniformBuffers = false →
        self.setTextureMatrix env.build matrix
          = ⟨[.setUniform self.textureMatrixUniform (.matrix matrix)], .returned self⟩)
      ∧ (self.flags.ge .UniformBuffers = true →
        self.bindTextureTransformationBuffer env.build buffer range
          = ⟨[.bufferBind buffer TextureTransformationBufferBinding range],
            .returned self⟩)) := by
  refine ⟨?_, ?_, ?_⟩
  · intro ht
    have h1 := setTextureMatrix_violation env.build self matrix ht
    have h2 := bindTextureTransformationBuffer_violation env.build self buffer range ht
    exact ⟨⟨h1, violation_no_effect _ _ _ h1⟩, ⟨h2, violation_no_effect _ _ _ h2⟩⟩
  · intro configuration hflags
    have hub : configuration.flags.ge .UniformBuffers = false := by rw [hflags]; rfl
    have hc := compile_of_not_UniformBuffers env dimensions configuration hub
    obtain ⟨state, hs, _, hf, _⟩ := compileBody_outcome env dimensions configuration
    refine ⟨accepted_of_compile_eq _ _ _ hc, state, by rw [hc]; exact hs, ?_, ?_,
      ofCompileState_returns env dimensions state⟩
    · intro hmem
      have := textureMatrix_lookup env dimensions state hmem
      rw [hf, hflags] at this
      exact absurd this (by decide)
    · intro program hp
      obtain ⟨_, hpf, _, _⟩ := ofCompileState_returned env dimensions state program hp
      have hpflags : program.flags = ⟨0⟩ := by rw [hpf, hf, hflags]
      exact ⟨by rw [hpflags]; rfl,
        setTextureMatrix_violation env.build program matrix (by rw [hpflags]; rfl)⟩
  · intro ht
    constructor
    · intro hu
      simp [VectorGL.setTextureMatrix, ifndef, CORRADE_ASSERT, ht, hu, Run.emit, Run.ret]
    · intro hu
      simp [VectorGL.bindTextureTransformationBuffer, CORRADE_ASSERT, ht, hu, Run.emit, Run.ret]

/-- Witness of C7: a program with no flags rejects `setTextureMatrix`. -/
theorem texture_transformation_required_witness :
    violation (sampleEnv ⟨.gles2, true, false⟩ true).build (sampleProgram ⟨0⟩ 1)
      ((sampleProgram ⟨0⟩ 1).setTextureMatrix (sampleEnv ⟨.gles2, true, false⟩ true).build
        (Matrix.identity 3)) = true :=
  ((texture_transformation_required (sampleEnv ⟨.gles2, true, false⟩ true) 2
    (sampleProgram ⟨0⟩ 1) (Matrix.identity 3) 5 none).1 (by decide)).1.1

/-- C8, amended. For an accepted configuration whose program object was
created and links, `compile()` returns a state and the constructor returns a
program for it, and the uniform writes of the constructor are these. Without
`UniformBuffers`, in an OpenGL ES build: the sampler binding, then the
identity to the transformation/projection matrix, the identity to the texture
matrix only when `TextureTransformation` is set, and (1,1,1,1) to the colour,
with no write to the background colour; when the driver resolves the names the
constructor looks up to pairwise distinct locations, these writes leave the
identity in the transformation/projection matrix, the identity in the texture
matrix when `TextureTransformation` is set, (1,1,1,1) in the colour, and the
background colour unwritten, at its value after linking. Without
`UniformBuffers`, in a desktop build: no default is written, the only possible
write is the sampler binding. With `UniformBuffers`, in every build: no
default is written either. -/
theorem constructor_defaults (env : Env) (dimensions : Nat) (configuration : Configuration)
    (hd : configuration.flags.declaredIn env.build = true)
    (ha : accepted env dimensions configuration = true)
    (hl : env.driver.checkLink = true)
    (hid : env.driver.createProgram ≠ 0) :
    ∃ state program,
      (compile env dimensions configuration).outcome = .returned state
      ∧ (VectorGL.ofCompileState env dimensions state).outcome = .returned program
      ∧ (configuration.flags.ge .UniformBuffers = false →
          env.build.MAGNUM_TARGET_GLES = true →
          uniformWrites (VectorGL.ofCompileState env dimensions state).trace =
            [(env.driver.uniformLocation "vectorTexture", .int TextureUnit),
             (program.transformationProjectionMatrixUniform,
               .matrix (Matrix.identity (dimensions + 1)))]
            ++ (if configuration.flags.and .TextureTransformation then
                [(program.textureMatrixUniform, .matrix (Matrix.identity 3))] else [])
            ++ [(program.colorUniform, .color ⟨1, 1, 1, 1⟩)]
          ∧ (((uniformLookups (VectorGL.ofCompileState env dimensions state).trace).map
                env.driver.uniformLocation).Nodup →
              lastWrite program.transformationProjectionMatrixUniform
                  (uniformWrites (VectorGL.ofCompileState env dimensions state).trace)
                = some (.matrix (Matrix.identity (dimensions + 1)))
              ∧ (configuration.flags.and .TextureTransformation = true →
                  lastWrite program.textureMatrixUniform
                    (uniformWrites (VectorGL.ofCompileState env dimensions state).trace)
                  = some (.matrix (Matrix.identity 3)))
              ∧ lastWrite program.colorUniform
                  (uniformWrites (VectorGL.ofCompileState env dimensions state).trace)
                = some (.color ⟨1, 1, 1, 1⟩)
              ∧ lastWrite program.backgroundColorUniform
                  (uniformWrites (VectorGL.ofCompileState env dimensions state).trace)
                = none))
      ∧ (configuration.flags.ge .UniformBuffers = false →
          env.build.MAGNUM_TARGET_GLES = false →
          uniformWrites (VectorGL.ofCompileState env dimensions state).trace =
            if env.context.isExtensionSupportedFor .ARB_shading_language_420pack state.version
            then [] else [(env.driver.uniformLocation "vectorTexture", .int TextureUnit)])
      ∧ (configuration.flags.ge .UniformBuffers = true →
          uniformWrites (VectorGL.ofCompileState env dimensions state).trace =
            if !env.build.MAGNUM_TARGET_GLES
              && env.context.isExtensionSupportedFor .ARB_shading_language_420pack
                state.version
            then [] else [(env.driver.uniformLocation "vectorTexture", .int TextureUnit)]) := by
  obtain ⟨state, hs, hsid, hf, _⟩ := compileBody_outcome env dimensions configuration
  have hid2 : state.program.id ≠ 0 := by rw [hsid]; exact hid
  have hr := resolveUniformLocations_configuration env state state.program
  have hout : (VectorGL.ofCompileState env dimensions state).outcome
      = .returned (resolveUniformLocations env state state.program).2 := by
    rw [ofCompileState_outcome]
    have h0 : (env.build.CORRADE_GRACEFUL_ASSERT && state.program.id == 0) = false := by
      simp [hid2]
    simp only [h0, hl, Bool.false_eq_true, if_false, if_true]
  have hflags : (resolveUniformLocations env state state.program).2.flags
      = configuration.flags := hr.2.1.trans hf
  refine ⟨state, _, by rw [compile_of_accepted env dimensions configuration ha]; exact hs,
    hout, ?_, ?_, ?_⟩
  · intro hub hg
    have hub2 : (!env.build.MAGNUM_TARGET_GLES2 && state.program.flags.ge .UniformBuffers)
        = false := by rw [hf, hub]; simp
    obtain ⟨e1, e2, e3, e4⟩ := resolveUniformLocations_direct env state state.program hg hub2
    have hw : uniformWrites (VectorGL.ofCompileState env dimensions state).trace =
        [(env.driver.uniformLocation "vectorTexture", .int TextureUnit),
         ((resolveUniformLocations env state state.program).2.transformationProjectionMatrixUniform,
           .matrix (Matrix.identity (dimensions + 1)))]
        ++ (if configuration.flags.and .TextureTransformation then
            [((resolveUniformLocations env state state.program).2.textureMatrixUniform,
              .matrix (Matrix.identity 3))] else [])
        ++ [((resolveUniformLocations env state state.program).2.colorUniform,
              .color ⟨1, 1, 1, 1⟩)] := by
      rw [uniformWrites_ofCompileState env dimensions state hl hid2,
        uniformWrites_resolveBindings, uniformWrites_setDefaults, hflags]
      simp [hg, hub]
    refine ⟨hw, ?_⟩
    intro hn
    rw [uniformLookups_ofCompileState env dimensions state hl hid2,
      uniformLookups_resolveUniformLocations, uniformLookups_resolveBindings_eq, hf] at hn
    simp only [hg, hub, Bool.not_true, Bool.false_and, Bool.and_false, Bool.false_eq_true,
      if_false] at hn
    rw [hw, e1, e3, e4]
    cases ht : configuration.flags.and .TextureTransformation
    · simp only [ht, Bool.false_eq_true, if_false, List.append_nil, List.cons_append,
        List.nil_append, List.map_cons, List.map_nil, List.nodup_cons, List.mem_cons,
        List.mem_singleton, List.not_mem_nil, not_or, or_false] at hn
      obtain ⟨⟨h12, h13, h14⟩, ⟨h23, h24⟩, h34, _⟩ := hn
      have s12 := Ne.symm h12
      have s13 := Ne.symm h13
      have s14 := Ne.symm h14
      have s23 := Ne.symm h23
      have s24 := Ne.symm h24
      have s34 := Ne.symm h34
      refine ⟨?_, ?_, ?_, ?_⟩
      · simp [lastWrite, h12, h13, h14, h23, h24, h34, s12, s13, s14, s23, s24, s34]
      · intro hc; exact absurd hc (by simp)
      · simp [lastWrite, h12, h13, h14, h23, h24, h34, s12, s13, s14, s23, s24, s34]
      · simp [lastWrite, h12, h13, h14, h23, h24, h34, s12, s13, s14, s23, s24, s34]
    · rw [hf, ht] at e2
      rw [e2 rfl]
      simp only [ht, if_true, List.cons_append, List.nil_append, List.map_cons,
        List.map_nil, List.nodup_cons, List.mem_cons, List.mem_singleton,
        List.not_mem_nil, not_or, or_false] at hn
      obtain ⟨⟨h12, h13, h14, h15⟩, ⟨h23, h24, h25⟩, ⟨h34, h35⟩, h45, _⟩ := hn
      have s12 := Ne.symm h12
      have s13 := Ne.symm h13
      have s14 := Ne.symm h14
      have s15 := Ne.symm h15
      have s23 := Ne.symm h23
      have s24 := Ne.symm h24
      have s25 := Ne.symm h25
      have s34 := Ne.symm h34
      have s35 := Ne.symm h35
      have s45 := Ne.symm h45
      refine ⟨?_, ?_, ?_, ?_⟩
      · simp [lastWrite, h12, h13, h14, h15, h23, h24, h25, h34, h35, h45,
          s12, s13, s14, s15, s23, s24, s25, s34, s35, s45]
      · intro _
        simp [lastWrite, h12, h13, h14, h15, h23, h24, h25, h34, h35, h45,
          s12, s13, s14, s15, s23, s24, s25, s34, s35, s45]
      · simp [lastWrite, h12, h13, h14, h15, h23, h24, h25, h34, h35, h45,
          s12, s13, s14, s15, s23, s24, s25, s34, s35, s45]
      · simp [lastWrite, h12, h13, h14, h15, h23, h24, h25, h34, h35, h45,
          s12, s13, s14, s15, s23, s24, s25, s34, s35, s45]
  · intro hub hg
    rw [uniformWrites_ofCompileState env dimensions state hl hid2,
      uniformWrites_resolveBindings, uniformWrites_setDefaults]
    simp [hg]
  · intro hub
    have hg2 := Flags.not_GLES2_of_ge_UniformBuffers _ _ hd hub
    rw [uniformWrites_ofCompileState env dimensions state hl hid2,
      uniformWrites_resolveBindings, uniformWrites_setDefaults, hflags]
    simp [hg2, hub]

/-- Witness of C8: an OpenGL ES 3 build, `TextureTransformation` only, two
dimensions; the driver resolves the names to distinct locations. -/
theorem constructor_defaults_witness :
    ∃ state program,
      (compile (sampleEnv ⟨.gles3, false, false⟩ false) 2 ⟨⟨1⟩, 1, 1⟩).outcome
        = .returned state
      ∧ (VectorGL.ofCompileState (sampleEnv ⟨.gles3, false, false⟩ false) 2 state).outcome
        = .returned program
      ∧ uniformWrites
          (VectorGL.ofCompileState (sampleEnv ⟨.gles3, false, false⟩ false) 2 state).trace
        = [(5, .int 6), (0, .matrix (Matrix.identity 3)), (1, .matrix (Matrix.identity 3)),
           (3, .color ⟨1, 1, 1, 1⟩)]
      ∧ lastWrite program.backgroundColorUniform (uniformWrites
          (VectorGL.ofCompileState (sampleEnv ⟨.gles3, false, false⟩ false) 2 state).trace)
        = none := by
  obtain ⟨state, program, h1, h2, h3, _⟩ :=
    constructor_defaults (sampleEnv ⟨.gles3, false, false⟩ false) 2 ⟨⟨1⟩, 1, 1⟩
      (by decide) (by decide) rfl (by decide)
  obtain rfl := Outcome.returned.inj h1
  obtain rfl := Outcome.returned.inj h2
  exact ⟨_, _, rfl, rfl, by decide, ((h3 (by decide) (by decide)).2 (by decide)).2.2.2⟩

/-- Counterexample to C8 as stated: in a desktop build whose context supports
the explicit-location extensions, the constructor returns the program of the
default configuration without writing any uniform, so it calls neither
`setTransformationProjectionMatrix` nor `setColor`. -/
theorem constructor_writes_no_defaults_on_desktop :
    Flags.ge ⟨0⟩ .UniformBuffers = false
    ∧ (VectorGL.ofConfiguration (sampleEnv ⟨.desktop, false, false⟩ true) 2 ⟨⟨0⟩, 1, 1⟩).outcome
      = .returned (sampleProgram ⟨0⟩ 1)
    ∧ uniformWrites
        (VectorGL.ofConfiguration (sampleEnv ⟨.desktop, false, false⟩ true) 2 ⟨⟨0⟩, 1, 1⟩).trace
      = [] := by
  decide

/-- C9. On a program with `UniformBuffers` each buffer-binding function is
exactly one bind of the given buffer to its own binding point, with the range
passed through unchanged: transformation/projection to 1, draw to 2, texture
transformation (when `TextureTransformation` is set) to 3, material to 4. The
four binding points are pairwise distinct and none is 0. `bindVectorTexture`
is one bind of the texture to unit 6, on every program. -/
theorem buffers_bound_to_fixed_points (b : Build) (self : VectorGL) (buffer texture : Nat)
    (range : Option (Int × Int)) :
    (self.flags.ge .UniformBuffers = true →
      self.bindTransformationProjectionBuffer b buffer range
          = ⟨[.bufferBind buffer 1 range], .returned self⟩
      ∧ self.bindDrawBuffer b buffer range = ⟨[.bufferBind buffer 2 range], .returned self⟩
      ∧ (self.flags.and .TextureTransformation = true →
          self.bindTextureTransformationBuffer b buffer range
            = ⟨[.bufferBind buffer 3 range], .returned self⟩)
      ∧ self.bindMaterialBuffer b buffer range
          = ⟨[.bufferBind buffer 4 range], .returned self⟩)
    ∧ [TransformationProjectionBufferBinding, DrawBufferBinding,
        TextureTransformationBufferBinding, MaterialBufferBinding] = [1, 2, 3, 4]
    ∧ [TransformationProjectionBufferBinding, DrawBufferBinding,
        TextureTransformationBufferBinding, MaterialBufferBinding].Nodup
    ∧ (0 : Int) ∉ [TransformationProjectionBufferBinding, DrawBufferBinding,
        TextureTransformationBufferBinding, MaterialBufferBinding]
    ∧ self.bindVectorTexture texture = ⟨[.textureBind texture 6], .returned self⟩ := by
  refine ⟨?_, rfl, by decide, by decide, rfl⟩
  intro hu
  refine ⟨?_, ?_, ?_, ?_⟩
  · simp [VectorGL.bindTransformationProjectionBuffer, CORRADE_ASSERT, hu, Run.emit, Run.ret,
      TransformationProjectionBufferBinding]
  · simp [VectorGL.bindDrawBuffer, CORRADE_ASSERT, hu, Run.emit, Run.ret, DrawBufferBinding]
  · intro ht
    simp [VectorGL.bindTextureTransformationBuffer, CORRADE_ASSERT, hu, ht, Run.emit, Run.ret,
      TextureTransformationBufferBinding]
  · simp [VectorGL.bindMaterialBuffer, CORRADE_ASSERT, hu, Run.emit, Run.ret,
      MaterialBufferBinding]

/-- Witness of C9: the ranged material bind on a program with
`UniformBuffers`. -/
theorem buffers_bound_to_fixed_points_witness :
    (sampleProgram ⟨2⟩ 1).bindMaterialBuffer ⟨.desktop, false, false⟩ 9 (some (16, 64))
      = ⟨[.bufferBind 9 4 (some (16, 64))], .returned (sampleProgram ⟨2⟩ 1)⟩ :=
  ((buffers_bound_to_fixed_points ⟨.desktop, false, false⟩ (sampleProgram ⟨2⟩ 1) 9 0
    (some (16, 64))).1 (by decide)).2.2.2

/-- C10. For every accepted configuration and every dimension, the sources
`compile()` adds to the vertex shader after the compatibility preamble are, in
order: the texture-transformation define (the empty text without
`TextureTransformation`), the dimension define (`TWO_DIMENSIONS` for dimension
2, `THREE_DIMENSIONS` otherwise), with `UniformBuffers` the `UNIFORM_BUFFERS`
define carrying `DRAW_COUNT` and then the `MULTI_DRAW` define (the empty text
without `MultiDraw`), then `generic.glsl`, then `Vector.vert`; to the fragment
shader: with `UniformBuffers` the `UNIFORM_BUFFERS` define carrying
`DRAW_COUNT` and `MATERIAL_COUNT` and then the `MULTI_DRAW` define, then
`generic.glsl`, then `Vector.frag`. Both lists end with the generic source
followed by the source of the stage, and without `UniformBuffers` neither list
holds a uniform-buffer or multi-draw define. -/
theorem compile_sources (env : Env) (dimensions : Nat) (configuration : Configuration)
    (hd : configuration.flags.declaredIn env.build = true)
    (ha : accepted env dimensions configuration = true) :
    sourcesOf .Vertex (compile env dimensions configuration).trace =
      [if configuration.flags.and .TextureTransformation then
          "#define TEXTURE_TRANSFORMATION\n" else "",
       if dimensions = 2 then "#define TWO_DIMENSIONS\n" else "#define THREE_DIMENSIONS\n"]
      ++ (if configuration.flags.ge .UniformBuffers then
          ["#define UNIFORM_BUFFERS\n#define DRAW_COUNT "
            ++ toString configuration.drawCount ++ "\n",
           if configuration.flags.ge .MultiDraw then "#define MULTI_DRAW\n" else ""]
        else [])
      ++ [env.getString "generic.glsl", env.getString "Vector.vert"]
    ∧ sourcesOf .Fragment (compile env dimensions configuration).trace =
      (if configuration.flags.ge .UniformBuffers then
          ["#define UNIFORM_BUFFERS\n#define DRAW_COUNT "
            ++ toString configuration.drawCount
            ++ "\n#define MATERIAL_COUNT " ++ toString configuration.materialCount ++ "\n",
           if configuration.flags.ge .MultiDraw then "#define MULTI_DRAW\n" else ""]
        else [])
      ++ [env.getString "generic.glsl", env.getString "Vector.frag"]
    ∧ [env.getString "generic.glsl", env.getString "Vector.vert"]
        <:+ sourcesOf .Vertex (compile env dimensions configuration).trace
    ∧ [env.getString "generic.glsl", env.getString "Vector.frag"]
        <:+ sourcesOf .Fragment (compile env dimensions configuration).trace
    ∧ (configuration.flags.ge .UniformBuffers = false →
        sourcesOf .Vertex (compile env dimensions configuration).trace =
          [if configuration.flags.and .TextureTransformation then
              "#define TEXTURE_TRANSFORMATION\n" else "",
           if dimensions = 2 then "#define TWO_DIMENSIONS\n"
           else "#define THREE_DIMENSIONS\n",
           env.getString "generic.glsl", env.getString "Vector.vert"]
        ∧ sourcesOf .Fragment (compile env dimensions configuration).trace =
          [env.getString "generic.glsl", env.getString "Vector.frag"]) := by
  obtain ⟨hv, hf⟩ := sourcesOf_compileBody env dimensions configuration hd
  rw [compile_of_accepted env dimensions configuration ha]
  refine ⟨hv, hf, ?_, ?_, ?_⟩
  · rw [hv]
    exact List.suffix_append _ _
  · rw [hf]
    exact List.suffix_append _ _
  · intro hub
    rw [hv, hf, hub]
    exact ⟨rfl, rfl⟩

/-- Witness of C10: a desktop build, three dimensions, all three flags,
material count 4 and draw count 10. -/
theorem compile_sources_witness :
    sourcesOf .Vertex (compile (sampleEnv ⟨.desktop, false, false⟩ true) 3 ⟨⟨7⟩, 4, 10⟩).trace
      = ["#define TEXTURE_TRANSFORMATION\n", "#define THREE_DIMENSIONS\n",
         "#define UNIFORM_BUFFERS\n#define DRAW_COUNT 10\n", "#define MULTI_DRAW\n",
         "generic.glsl", "Vector.vert"]
    ∧ sourcesOf .Fragment
        (compile (sampleEnv ⟨.desktop, false, false⟩ true) 3 ⟨⟨7⟩, 4, 10⟩).trace
      = ["#define UNIFORM_BUFFERS\n#define DRAW_COUNT 10\n#define MATERIAL_COUNT 4\n",
         "#define MULTI_DRAW\n", "generic.glsl", "Vector.frag"] :=
  have h := compile_sources (sampleEnv ⟨.desktop, false, false⟩ true) 3 ⟨⟨7⟩, 4, 10⟩
    (by decide) (by decide)
  ⟨h.1.trans (by decide), h.2.1.trans (by decide)⟩

/-- C11. In the constructor, once the link check has been made and has
succeeded: when the context does not report the explicit-uniform-location
extension supported for the version of the state, the uniform locations looked
up by name are exactly `drawOffset` with `UniformBuffers` and a draw count
above 1, none with `UniformBuffers` and a draw count of at most 1, and without
`UniformBuffers` exactly `transformationProjectionMatrix`, `textureMatrix`
(only with `TextureTransformation`), `backgroundColor` and `color`, in that
order; when it reports the extension supported, none of them is looked up. The
only other name the constructor can look up is the sampler `vectorTexture`,
which follows them when layout bindings are not reported supported. -/
theorem uniform_locations_looked_up (env : Env) (dimensions : Nat) (state : CompileState)
    (hd : state.program.flags.declaredIn env.build = true)
    (hc : Event.checkLink [.Vertex, .Fragment]
      ∈ (VectorGL.ofCompileState env dimensions state).trace)
    (hl : env.driver.checkLink = true) :
    (reportedSupported env.context (explicitUniformLocationExtension env.build)
        state.version = false →
      (state.program.flags.ge .UniformBuffers = true → 1 < state.program.drawCount →
        uniformLookups (VectorGL.ofCompileState env dimensions state).trace =
          ["drawOffset"]
          ++ (if reportedSupported env.context (layoutBindingExtension env.build)
                state.version then [] else ["vectorTexture"]))
      ∧ (state.program.flags.ge .UniformBuffers = true → state.program.drawCount ≤ 1 →
        uniformLookups (VectorGL.ofCompileState env dimensions state).trace =
          if reportedSupported env.context (layoutBindingExtension env.build)
            state.version then [] else ["vectorTexture"])
      ∧ (state.program.flags.ge .UniformBuffers = false →
        uniformLookups (VectorGL.ofCompileState env dimensions state).trace =
          ["transformationProjectionMatrix"]
          ++ (if state.program.flags.and .TextureTransformation then ["textureMatrix"]
              else [])
          ++ ["backgroundColor", "color"]
          ++ (if reportedSupported env.context (layoutBindingExtension env.build)
                state.version then [] else ["vectorTexture"])))
    ∧ (reportedSupported env.context (explicitUniformLocationExtension env.build)
        state.version = true →
      uniformLookups (VectorGL.ofCompileState env dimensions state).trace =
        if reportedSupported env.context (layoutBindingExtension env.build)
          state.version then [] else ["vectorTexture"]) := by
  have hlook := uniformLookups_of_checkLink env dimensions state hc hl
  rw [uniformLookups_resolveUniformLocations, uniformLookups_resolveBindings_eq,
    ← reportedSupported_explicitUniformLocation, ← reportedSupported_layoutBinding] at hlook
  constructor
  · intro hu
    rw [hu] at hlook
    simp only [Bool.false_eq_true, if_false] at hlook
    refine ⟨?_, ?_, ?_⟩
    · intro hub hdc
      have hg := Flags.not_GLES2_of_ge_UniformBuffers _ _ hd hub
      rw [hlook]
      simp [hg, hub, hdc]
    · intro hub hdc
      have hg := Flags.not_GLES2_of_ge_UniformBuffers _ _ hd hub
      rw [hlook]
      simp [hg, hub, Nat.not_lt.mpr hdc]
    · intro hub
      rw [hlook]
      simp [hub]
  · intro hs
    rw [hs] at hlook
    simpa using hlook

/-- Witness of C11: a desktop build whose context reports no extension
supported, `UniformBuffers` with ten draws. -/
theorem uniform_locations_looked_up_witness :
    uniformLookups (VectorGL.ofCompileState (sampleEnv ⟨.desktop, false, false⟩ false) 2
        ⟨sampleProgram ⟨2⟩ 10, ⟨.Vertex, 3⟩, ⟨.Fragment, 3⟩, .GL210⟩).trace
      = ["drawOffset", "vectorTexture"] :=
  (((uniform_locations_looked_up (sampleEnv ⟨.desktop, false, false⟩ false) 2
    ⟨sampleProgram ⟨2⟩ 10, ⟨.Vertex, 3⟩, ⟨.Fragment, 3⟩, .GL210⟩
    (by decide) (by decide) rfl).1 (by decide)).1 (by decide) (by decide)).trans (by decide)

/-- C12. In the constructor, once the link check has been made and has
succeeded: when the context does not report layout-binding support for the
version of the state, the constructor looks the sampler `vectorTexture` up by
name and sets it to texture unit 6, whatever the flags; with `UniformBuffers`
it also looks the uniform blocks up by name and binds `TransformationProjection`
to 1, `Draw` to 2, `TextureTransformation` to 3 (only with
`TextureTransformation`) and `Material` to 4, in that order, and without
`UniformBuffers` it looks up and binds no block. When the context reports the
support, there is no sampler write, no sampler lookup and no block lookup or
binding. -/
theorem sampler_and_blocks_bound_by_name (env : Env) (dimensions : Nat)
    (state : CompileState)
    (hd : state.program.flags.declaredIn env.build = true)
    (hc : Event.checkLink [.Vertex, .Fragment]
      ∈ (VectorGL.ofCompileState env dimensions state).trace)
    (hl : env.driver.checkLink = true) :
    (reportedSupported env.context (layoutBindingExtension env.build) state.version = false →
      samplerWrites (VectorGL.ofCompileState env dimensions state).trace
        = [(env.driver.uniformLocation "vectorTexture", 6)]
      ∧ "vectorTexture" ∈ uniformLookups (VectorGL.ofCompileState env dimensions state).trace
      ∧ (state.program.flags.ge .UniformBuffers = true →
          blockLookups (VectorGL.ofCompileState env dimensions state).trace =
            ["TransformationProjection", "Draw"]
            ++ (if state.program.flags.and .TextureTransformation then
                ["TextureTransformation"] else [])
            ++ ["Material"]
          ∧ blockBindings (VectorGL.ofCompileState env dimensions state).trace =
            [(env.driver.uniformBlockIndex "TransformationProjection", 1),
             (env.driver.uniformBlockIndex "Draw", 2)]
            ++ (if state.program.flags.and .TextureTransformation then
                [(env.driver.uniformBlockIndex "TextureTransformation", 3)] else [])
            ++ [(env.driver.uniformBlockIndex "Material", 4)])
      ∧ (state.program.flags.ge .UniformBuffers = false →
          blockLookups (VectorGL.ofCompileState env dimensions state).trace = []
          ∧ blockBindings (VectorGL.ofCompileState env dimensions state).trace = []))
    ∧ (reportedSupported env.context (layoutBindingExtension env.build) state.version = true →
      samplerWrites (VectorGL.ofCompileState env dimensions state).trace = []
      ∧ "vectorTexture" ∉ uniformLookups (VectorGL.ofCompileState env dimensions state).trace
      ∧ blockLookups (VectorGL.ofCompileState env dimensions state).trace = []
      ∧ blockBindings (VectorGL.ofCompileState env dimensions state).trace = []) := by
  obtain ⟨h1, h2, h3⟩ := bindings_ofCompileState env dimensions state hc hl
  have hlook := uniformLookups_of_checkLink env dimensions state hc hl
  have hflags := (resolveUniformLocations_configuration env state state.program).2.1
  rw [uniformLookups_resolveBindings_eq, ← reportedSupported_layoutBinding] at hlook
  rw [h1, h2, h3]
  rw [reportedSupported_layoutBinding]
  unfold resolveBindings
  dsimp only
  rw [hflags]
  constructor
  · intro hu
    rw [reportedSupported_layoutBinding] at hlook
    rw [hu] at hlook
    simp only [hu, Bool.false_eq_true, if_false]
    refine ⟨?_, ?_, ?_, ?_⟩
    · cases (!env.build.MAGNUM_TARGET_GLES2 && state.program.flags.ge .UniformBuffers) <;>
        cases state.program.flags.and .TextureTransformation <;> rfl
    · rw [hlook]
      simp
    · intro hub
      have hg := Flags.not_GLES2_of_ge_UniformBuffers _ _ hd hub
      simp only [hg, hub, Bool.not_false, Bool.and_self, if_true]
      cases state.program.flags.and .TextureTransformation <;> exact ⟨rfl, rfl⟩
    · intro hub
      simp only [hub, Bool.and_false, Bool.false_eq_true, if_false]
      exact ⟨rfl, rfl⟩
  · intro hs
    rw [reportedSupported_layoutBinding] at hlook
    rw [hs] at hlook
    simp only [hs, if_true]
    refine ⟨rfl, ?_, rfl, rfl⟩
    simp only [if_true, List.append_nil] at hlook
    rw [hlook, uniformLookups_resolveUniformLocations]
    split_ifs <;> simp

/-- Witness of C12: an OpenGL ES 3 build, `UniformBuffers` and
`TextureTransformation`; the sample driver numbers a block by the length of
its name. -/
theorem sampler_and_blocks_bound_by_name_witness :
    blockBindings (VectorGL.ofCompileState (sampleEnv ⟨.gles3, false, false⟩ false) 2
        ⟨sampleProgram ⟨3⟩ 10, ⟨.Vertex, 3⟩, ⟨.Fragment, 3⟩, .None⟩).trace
      = [(24, 1), (4, 2), (21, 3), (8, 4)] :=
  ((((sampler_and_blocks_bound_by_name (sampleEnv ⟨.gles3, false, false⟩ false) 2
    ⟨sampleProgram ⟨3⟩ 10, ⟨.Vertex, 3⟩, ⟨.Fragment, 3⟩, .None⟩
    (by decide) (by decide) rfl).1 (by decide)).2.2.1 (by decide)).2).trans (by decide)

end Magnum.Shaders
